import Mathlib

/-!
Verification of the auto-post orchestration engine of the reviewsocial
Shopify application (shallow embedding of the TypeScript source).

The embedding covers:
* the PostedReview ledger (Prisma model with the unique (shop, reviewId) key)
  and its upsert semantics;
* the post-one-review procedure postReviewToInstagram together with the
  container-status polling loop waitForMediaContainerReady;
* the per-shop sweep procedure processShopReviews (quota checks, retry phase,
  new-review phase);
* the run controller processAllShopsQueued (coalescing of run requests),
  modelled as a labelled transition system;
* the Judge.me webhook action (HMAC check, rating filter, inlined posting).

External effects (image generation, HTTP responses, container-status polls)
are supplied by explicit environment records, so every definition is an
executable function of its inputs.
-/

set_option maxHeartbeats 1000000

/-- Observable events emitted by the embedded procedures. -/
inductive Ev where
  | imageGen
  | verifyImage
  | createContainer
  | awaitReady (maxAttempts : Nat)
  | publishCall
  | sleepMs (ms : Nat)
  | fetchReviews
  | post (reviewId : String)
  deriving DecidableEq, Repr

/-- A row of the PostedReview table (Prisma model PostedReview). -/
structure Row where
  shop : String
  reviewId : String
  productTitle : Option String
  reviewerName : Option String
  rating : Int
  reviewText : Option String
  instagramPostId : Option String
  imageUrl : Option String
  status : String
  error : Option String
  postedAt : Nat
  deriving DecidableEq, Repr

/-- JavaScript string-alternation a || b || ... || dflt over optional strings:
the first operand that is present and nonempty wins (the empty string is
falsy in JavaScript). -/
def firstTruthy (xs : List (Option String)) (dflt : String) : String :=
  match xs with
  | [] => dflt
  | none :: rest => firstTruthy rest dflt
  | some s :: rest => if s.isEmpty then firstTruthy rest dflt else s

/-- JavaScript numeric alternation a || b over optional numbers: zero and
absence are falsy. -/
def jsOrInt (a b : Option Int) : Option Int :=
  match a with
  | none => b
  | some v => if v = 0 then b else some v

/-- Whether the character list needle occurs as a contiguous sublist of hay
(the JavaScript String.prototype.includes test). -/
def listIsPfx (a b : List Char) : Bool :=
  match a, b with
  | [], _ => true
  | _ :: _, [] => false
  | x :: xs, y :: ys => x == y && listIsPfx xs ys

/-- Substring containment on character lists. -/
def hasSub (needle : List Char) (hay : List Char) : Bool :=
  match hay with
  | [] => needle.isEmpty
  | _ :: t => listIsPfx needle hay || hasSub needle t

/-- getMonthlyQuotaForPlanName from the cron service: a falsy plan name
(absent or empty) or one containing the substring free (case-insensitive)
yields the Free quota of 5; every other plan name yields no cap (Infinity
in the source, modelled as none). -/
def getMonthlyQuotaForPlanName (planName : Option String) : Option Nat :=
  match planName with
  | none => some 5
  | some p =>
    if p.isEmpty then some 5
    else if hasSub "free".data (p.data.map Char.toLower) then some 5
    else none

/-- Field set passed to a prisma.postedReview.upsert call.  A none value for
imageUrl, instagramPostId or error means the field is absent from the
create/update objects of that call (so an update leaves the stored value
untouched). -/
structure UpsertFields where
  productTitle : String
  reviewerName : String
  rating : Int
  reviewText : String
  imageUrl : Option String
  instagramPostId : Option String
  status : String
  error : Option String
  deriving DecidableEq, Repr

/-- The update branch of the upsert: rewrite exactly the fields present in
the update object, keep the rest (including postedAt). -/
def applyUpdate (f : UpsertFields) (r : Row) : Row :=
  { r with
    productTitle := some f.productTitle
    reviewerName := some f.reviewerName
    rating := f.rating
    reviewText := some f.reviewText
    imageUrl := match f.imageUrl with | some u => some u | none => r.imageUrl
    instagramPostId := match f.instagramPostId with | some p => some p | none => r.instagramPostId
    status := f.status
    error := match f.error with | some e => some e | none => r.error }

/-- The create branch of the upsert: a fresh row with postedAt defaulted to
the current time (CURRENT_TIMESTAMP). -/
def rowOfCreate (shop reviewId : String) (now : Nat) (f : UpsertFields) : Row :=
  { shop := shop
    reviewId := reviewId
    productTitle := some f.productTitle
    reviewerName := some f.reviewerName
    rating := f.rating
    reviewText := some f.reviewText
    imageUrl := f.imageUrl
    instagramPostId := f.instagramPostId
    status := f.status
    error := f.error
    postedAt := now }

/-- Whether a row carries the composite key (shop, reviewId). -/
def keyMatch (shop reviewId : String) (r : Row) : Bool :=
  r.shop == shop && r.reviewId == reviewId

/-- Whether the ledger holds a row keyed (shop, reviewId). -/
def hasKey (db : List Row) (shop reviewId : String) : Bool :=
  db.any (keyMatch shop reviewId)

/-- prisma.postedReview.upsert on the unique key (shop, reviewId): update the
matching row in place when one exists, insert a fresh row otherwise. -/
def upsertPostedReview (db : List Row) (shop reviewId : String) (now : Nat)
    (f : UpsertFields) : List Row :=
  if hasKey db shop reviewId then
    db.map (fun r => if keyMatch shop reviewId r then applyUpdate f r else r)
  else
    db ++ [rowOfCreate shop reviewId now f]

/-- The uniqueness invariant of the ledger: no two rows share the composite
key (shop, reviewId) — the PostedReview_shop_reviewId_key unique index. -/
def UniqueKeys (db : List Row) : Prop :=
  db.Pairwise (fun a b => ¬(a.shop = b.shop ∧ a.reviewId = b.reviewId))

instance instDecEqExceptSP {ε α : Type} [DecidableEq ε] [DecidableEq α] :
    DecidableEq (Except ε α) := fun a b =>
  match a, b with
  | .ok x, .ok y =>
    if h : x = y then isTrue (by rw [h]) else isFalse (by simp [h])
  | .ok _, .error _ => isFalse (by simp)
  | .error _, .ok _ => isFalse (by simp)
  | .error x, .error y =>
    if h : x = y then isTrue (by rw [h]) else isFalse (by simp [h])

/-- One response of the container-status endpoint, as consumed by
waitForMediaContainerReady: a non-2xx HTTP response, status_code FINISHED,
status_code ERROR with a message, or still in progress. -/
inductive PollStatus where
  | httpError (status : Nat) (text : String)
  | finished
  | errorWith (msg : String)
  | inProgress
  deriving DecidableEq, Repr

/-- Loop body of waitForMediaContainerReady: attempt numbers count up while
the remaining attempt budget counts down. -/
def waitReadyGo (poll : Nat → PollStatus) (attempt : Nat) (remaining : Nat) :
    Except String Unit :=
  match remaining with
  | 0 => .error "Media container not ready after waiting"
  | r + 1 =>
    match poll attempt with
    | .httpError s t => .error ("Failed to check media status: " ++ toString s ++ " " ++ t)
    | .finished => .ok ()
    | .errorWith m => .error ("Media container error: " ++ m)
    | .inProgress => waitReadyGo poll (attempt + 1) r

/-- Default maxAttempts of waitForMediaContainerReady (the initial AwaitReady
poll run by postReviewToInstagram uses this default). -/
def defaultAwaitMaxAttempts : Nat := 10

/-- maxAttempts passed to the extra wait-and-recheck cycle after a publish
failure with the media-not-ready code/subcode pair. -/
def publishRecheckMaxAttempts : Nat := 5

/-- waitForMediaContainerReady: poll the container status endpoint up to
maxAttempts times; FINISHED succeeds, ERROR and HTTP failures throw, and
exhausting the bound throws not-ready. -/
def waitForMediaContainerReady (poll : Nat → PollStatus) (maxAttempts : Nat) :
    Except String Unit :=
  waitReadyGo poll 1 maxAttempts

/-- A failed publish response: raw error text plus the code and error_subcode
recovered by JSON-parsing that text (none when parsing fails or the field is
absent). -/
structure PubError where
  text : String
  code : Option Int
  subcode : Option Int
  deriving DecidableEq, Repr

/-- Response-level environment of one postReviewToInstagram invocation: the
outcome of each external interaction once a response exists.
generateReviewImage never throws (it returns null on any internal failure),
so it is an Option.  This environment abstracts away the promise-rejection
outcomes of the awaited fetches and body reads; PostEnvFull below models
those rejection paths as well, and agrees with this model on rejection-free
runs (postReviewFull_agrees). -/
structure PostEnv where
  imageGen : Option String
  accessible : Bool
  container : Except String String
  initPoll : Nat → PollStatus
  publish1 : Except PubError String
  recheckPoll : Nat → PollStatus
  publish2 : Except PubError String

/-- The review payload fields read by postReviewToInstagram. -/
structure ReviewData where
  id : String
  rating : Int
  body : Option String
  content : Option String
  reviewerDotName : Option String
  reviewer_name : Option String
  name : Option String
  product_title : Option String
  productDotTitle : Option String
  deriving DecidableEq, Repr

/-- Result of one postReviewToInstagram invocation: the ledger afterwards,
the returned post id or the thrown error message, and the event trace. -/
structure PostResult where
  db : List Row
  result : Except String String
  trace : List Ev
  deriving DecidableEq, Repr

/-- Field set of the failure upserts of postReviewToInstagram (every failure
upsert rewrites title, reviewer, rating, text and status and sets an error
string; the image URL field is present only once a URL exists). -/
def failFields (productTitle reviewerName : String) (rating : Int)
    (reviewText : String) (imageUrl : Option String) (err : String) : UpsertFields :=
  { productTitle := productTitle
    reviewerName := reviewerName
    rating := rating
    reviewText := reviewText.take 500
    imageUrl := imageUrl
    instagramPostId := none
    status := "failed"
    error := some err }

/-- Field set of the success upsert of postReviewToInstagram (no error field
in the create/update objects, so a stored error string survives). -/
def successFields (productTitle reviewerName : String) (rating : Int)
    (reviewText : String) (imageUrl : String) (postId : String) : UpsertFields :=
  { productTitle := productTitle
    reviewerName := reviewerName
    rating := rating
    reviewText := reviewText.take 500
    imageUrl := some imageUrl
    instagramPostId := some postId
    status := "success"
    error := none }

/-- postReviewToInstagram: generate the image, verify it, create the media
container, await readiness (default bound), publish with the single
media-not-ready recheck (bound 5), and upsert the outcome; every throw is
preceded by a failed upsert. -/
def postReviewToInstagram (shop : String) (review : ReviewData) (env : PostEnv)
    (now : Nat) (db : List Row) : PostResult :=
  let reviewId := review.id
  let reviewText := firstTruthy [review.body, review.content] ""
  let reviewerName :=
    firstTruthy [review.reviewerDotName, review.reviewer_name, review.name] "A Happy Customer"
  let productTitle := firstTruthy [review.product_title, review.productDotTitle] "Our Product"
  let rating := review.rating
  match env.imageGen with
  | none =>
    { db := upsertPostedReview db shop reviewId now
        (failFields productTitle reviewerName rating reviewText none "Image generation failed")
      result := .error "Image generation failed"
      trace := [.imageGen] }
  | some imageUrl =>
    if env.accessible then
      match env.container with
      | .error errText =>
        { db := upsertPostedReview db shop reviewId now
            (failFields productTitle reviewerName rating reviewText (some imageUrl)
              ("Instagram container failed: " ++ errText))
          result := .error ("Failed to create media container: " ++ errText)
          trace := [.imageGen, .verifyImage, .createContainer] }
      | .ok _containerId =>
        match waitForMediaContainerReady env.initPoll defaultAwaitMaxAttempts with
        | .error msg =>
          { db := upsertPostedReview db shop reviewId now
              (failFields productTitle reviewerName rating reviewText (some imageUrl)
                ("Instagram container not ready: " ++ msg))
            result := .error msg
            trace := [.imageGen, .verifyImage, .createContainer,
              .awaitReady defaultAwaitMaxAttempts] }
        | .ok () =>
          match env.publish1 with
          | .ok postId =>
            { db := upsertPostedReview db shop reviewId now
                (successFields productTitle reviewerName rating reviewText imageUrl postId)
              result := .ok postId
              trace := [.imageGen, .verifyImage, .createContainer,
                .awaitReady defaultAwaitMaxAttempts, .publishCall] }
          | .error e1 =>
            if e1.code = some 9007 ∧ e1.subcode = some 2207027 then
              match waitForMediaContainerReady env.recheckPoll publishRecheckMaxAttempts with
              | .error _ =>
                { db := upsertPostedReview db shop reviewId now
                    (failFields productTitle reviewerName rating reviewText (some imageUrl)
                      ("Instagram publish failed: " ++ e1.text))
                  result := .error ("Failed to publish media: " ++ e1.text)
                  trace := [.imageGen, .verifyImage, .createContainer,
                    .awaitReady defaultAwaitMaxAttempts, .publishCall, .sleepMs 2000,
                    .awaitReady publishRecheckMaxAttempts] }
              | .ok () =>
                match env.publish2 with
                | .ok postId =>
                  { db := upsertPostedReview db shop reviewId now
                      (successFields productTitle reviewerName rating reviewText imageUrl postId)
                    result := .ok postId
                    trace := [.imageGen, .verifyImage, .createContainer,
                      .awaitReady defaultAwaitMaxAttempts, .publishCall, .sleepMs 2000,
                      .awaitReady publishRecheckMaxAttempts, .publishCall] }
                | .error e2 =>
                  { db := upsertPostedReview db shop reviewId now
                      (failFields productTitle reviewerName rating reviewText (some imageUrl)
                        ("Instagram publish failed (after retry): " ++ e2.text))
                    result := .error ("Failed to publish media: " ++ e2.text)
                    trace := [.imageGen, .verifyImage, .createContainer,
                      .awaitReady defaultAwaitMaxAttempts, .publishCall, .sleepMs 2000,
                      .awaitReady publishRecheckMaxAttempts, .publishCall] }
            else
              { db := upsertPostedReview db shop reviewId now
                  (failFields productTitle reviewerName rating reviewText (some imageUrl)
                    ("Instagram publish failed: " ++ e1.text))
                result := .error ("Failed to publish media: " ++ e1.text)
                trace := [.imageGen, .verifyImage, .createContainer,
                  .awaitReady defaultAwaitMaxAttempts, .publishCall] }
    else
      { db := upsertPostedReview db shop reviewId now
          (failFields productTitle reviewerName rating reviewText (some imageUrl)
            "Image not accessible")
        result := .error "Image not accessible"
        trace := [.imageGen, .verifyImage] }

/-- postStoredReviewToInstagram: rebuild a ReviewData from a stored ledger
row and re-run postReviewToInstagram. -/
def reviewOfRow (rec : Row) : ReviewData :=
  { id := rec.reviewId
    rating := rec.rating
    body := rec.reviewText
    content := rec.reviewText
    reviewerDotName := rec.reviewerName
    reviewer_name := rec.reviewerName
    name := rec.reviewerName
    product_title := rec.productTitle
    productDotTitle := rec.productTitle }

/-- The retry path: post a stored failed row again. -/
def postStoredReviewToInstagram (shop : String) (rec : Row) (env : PostEnv)
    (now : Nat) (db : List Row) : PostResult :=
  postReviewToInstagram shop (reviewOfRow rec) env now db

/-- Environment of one postReviewToInstagram invocation including the
promise-rejection outcomes of the awaited platform calls, which the
response-level PostEnv abstracts away.  containerReject: the container-create
fetch, or a read of its body (text on failure, json on success), rejects and
the exception propagates uncaught.  publishReject: the first publish fetch,
or the read of its failure body, rejects and propagates uncaught.
publish2Reject: a rejection inside the media-not-ready retry block — false
for the retried fetch itself (the retry flag is still false), true for the
read of its failure body (the retry flag is already true and the error text
is still the first failure's) — swallowed by the surrounding parse catch, so
the terminal upsert still runs.  publishJsonReject: the json read of the
successful publish response rejects and propagates uncaught, before any
success row is written. -/
structure PostEnvFull where
  imageGen : Option String
  accessible : Bool
  containerReject : Option String
  container : Except String String
  initPoll : Nat → PollStatus
  publishReject : Option String
  publish1 : Except PubError String
  recheckPoll : Nat → PollStatus
  publish2Reject : Option Bool
  publish2 : Except PubError String
  publishJsonReject : Option String

/-- postReviewToInstagram over the full environment: identical to the
response-level embedding except that the rejection points of the awaited
container-create and publish calls and of the response body reads are
represented.  A rejection outside the retry block propagates with NO ledger
write; a rejection inside the retry block is swallowed and still reaches the
terminal failed upsert. -/
def postReviewToInstagramFull (shop : String) (review : ReviewData)
    (env : PostEnvFull) (now : Nat) (db : List Row) : PostResult :=
  let reviewId := review.id
  let reviewText := firstTruthy [review.body, review.content] ""
  let reviewerName :=
    firstTruthy [review.reviewerDotName, review.reviewer_name, review.name] "A Happy Customer"
  let productTitle := firstTruthy [review.product_title, review.productDotTitle] "Our Product"
  let rating := review.rating
  match env.imageGen with
  | none =>
    { db := upsertPostedReview db shop reviewId now
        (failFields productTitle reviewerName rating reviewText none "Image generation failed")
      result := .error "Image generation failed"
      trace := [.imageGen] }
  | some imageUrl =>
    if env.accessible then
      match env.containerReject with
      | some msg =>
        { db := db
          result := .error msg
          trace := [.imageGen, .verifyImage, .createContainer] }
      | none =>
        match env.container with
        | .error errText =>
          { db := upsertPostedReview db shop reviewId now
              (failFields productTitle reviewerName rating reviewText (some imageUrl)
                ("Instagram container failed: " ++ errText))
            result := .error ("Failed to create media container: " ++ errText)
            trace := [.imageGen, .verifyImage, .createContainer] }
        | .ok _containerId =>
          match waitForMediaContainerReady env.initPoll defaultAwaitMaxAttempts with
          | .error msg =>
            { db := upsertPostedReview db shop reviewId now
                (failFields productTitle reviewerName rating reviewText (some imageUrl)
                  ("Instagram container not ready: " ++ msg))
              result := .error msg
              trace := [.imageGen, .verifyImage, .createContainer,
                .awaitReady defaultAwaitMaxAttempts] }
          | .ok () =>
            match env.publishReject with
            | some msg =>
              { db := db
                result := .error msg
                trace := [.imageGen, .verifyImage, .createContainer,
                  .awaitReady defaultAwaitMaxAttempts, .publishCall] }
            | none =>
              match env.publish1 with
              | .ok postId =>
                match env.publishJsonReject with
                | some msg =>
                  { db := db
                    result := .error msg
                    trace := [.imageGen, .verifyImage, .createContainer,
                      .awaitReady defaultAwaitMaxAttempts, .publishCall] }
                | none =>
                  { db := upsertPostedReview db shop reviewId now
                      (successFields productTitle reviewerName rating reviewText imageUrl postId)
                    result := .ok postId
                    trace := [.imageGen, .verifyImage, .createContainer,
                      .awaitReady defaultAwaitMaxAttempts, .publishCall] }
              | .error e1 =>
                if e1.code = some 9007 ∧ e1.subcode = some 2207027 then
                  match waitForMediaContainerReady env.recheckPoll publishRecheckMaxAttempts with
                  | .error _ =>
                    { db := upsertPostedReview db shop reviewId now
                        (failFields productTitle reviewerName rating reviewText (some imageUrl)
                          ("Instagram publish failed: " ++ e1.text))
                      result := .error ("Failed to publish media: " ++ e1.text)
                      trace := [.imageGen, .verifyImage, .createContainer,
                        .awaitReady defaultAwaitMaxAttempts, .publishCall, .sleepMs 2000,
                        .awaitReady publishRecheckMaxAttempts] }
                  | .ok () =>
                    match env.publish2Reject with
                    | some false =>
                      { db := upsertPostedReview db shop reviewId now
                          (failFields productTitle reviewerName rating reviewText (some imageUrl)
                            ("Instagram publish failed: " ++ e1.text))
                        result := .error ("Failed to publish media: " ++ e1.text)
                        trace := [.imageGen, .verifyImage, .createContainer,
                          .awaitReady defaultAwaitMaxAttempts, .publishCall, .sleepMs 2000,
                          .awaitReady publishRecheckMaxAttempts, .publishCall] }
                    | some true =>
                      { db := upsertPostedReview db shop reviewId now
                          (failFields productTitle reviewerName rating reviewText (some imageUrl)
                            ("Instagram publish failed (after retry): " ++ e1.text))
                        result := .error ("Failed to publish media: " ++ e1.text)
                        trace := [.imageGen, .verifyImage, .createContainer,
                          .awaitReady defaultAwaitMaxAttempts, .publishCall, .sleepMs 2000,
                          .awaitReady publishRecheckMaxAttempts, .publishCall] }
                    | none =>
                      match env.publish2 with
                      | .ok postId =>
                        match env.publishJsonReject with
                        | some msg =>
                          { db := db
                            result := .error msg
                            trace := [.imageGen, .verifyImage, .createContainer,
                              .awaitReady defaultAwaitMaxAttempts, .publishCall, .sleepMs 2000,
                              .awaitReady publishRecheckMaxAttempts, .publishCall] }
                        | none =>
                          { db := upsertPostedReview db shop reviewId now
                              (successFields productTitle reviewerName rating reviewText imageUrl postId)
                            result := .ok postId
                            trace := [.imageGen, .verifyImage, .createContainer,
                              .awaitReady defaultAwaitMaxAttempts, .publishCall, .sleepMs 2000,
                              .awaitReady publishRecheckMaxAttempts, .publishCall] }
                      | .error e2 =>
                        { db := upsertPostedReview db shop reviewId now
                            (failFields productTitle reviewerName rating reviewText (some imageUrl)
                              ("Instagram publish failed (after retry): " ++ e2.text))
                          result := .error ("Failed to publish media: " ++ e2.text)
                          trace := [.imageGen, .verifyImage, .createContainer,
                            .awaitReady defaultAwaitMaxAttempts, .publishCall, .sleepMs 2000,
                            .awaitReady publishRecheckMaxAttempts, .publishCall] }
                else
                  { db := upsertPostedReview db shop reviewId now
                      (failFields productTitle reviewerName rating reviewText (some imageUrl)
                        ("Instagram publish failed: " ++ e1.text))
                    result := .error ("Failed to publish media: " ++ e1.text)
                    trace := [.imageGen, .verifyImage, .createContainer,
                      .awaitReady defaultAwaitMaxAttempts, .publishCall] }
    else
      { db := upsertPostedReview db shop reviewId now
          (failFields productTitle reviewerName rating reviewText (some imageUrl)
            "Image not accessible")
        result := .error "Image not accessible"
        trace := [.imageGen, .verifyImage] }

/-- Forget the rejection outcomes of a full environment. -/
def forgetRejects (env : PostEnvFull) : PostEnv :=
  { imageGen := env.imageGen
    accessible := env.accessible
    container := env.container
    initPoll := env.initPoll
    publish1 := env.publish1
    recheckPoll := env.recheckPoll
    publish2 := env.publish2 }

/-- MAX_POSTS_PER_DAY of the cron service. -/
def MAX_POSTS_PER_DAY : Nat := 10

/-- MAX_POSTS_PER_RUN of the cron service. -/
def MAX_POSTS_PER_RUN : Nat := 5

/-- Count of successful ledger rows for the shop posted at or after the given
instant (the prisma count with status success and postedAt gte). -/
def countSuccessSince (db : List Row) (shop : String) (since : Nat) : Nat :=
  (db.filter (fun r => r.shop == shop && r.status == "success" && since ≤ r.postedAt)).length

/-- The ordering used by the retry query: ascending postedAt. -/
def postedAtLE (a b : Row) : Prop := a.postedAt ≤ b.postedAt

instance : DecidableRel postedAtLE := fun a b => Nat.decLe a.postedAt b.postedAt

instance : IsTotal Row postedAtLE := ⟨fun a b => Nat.le_total a.postedAt b.postedAt⟩

instance : IsTrans Row postedAtLE := ⟨fun _ _ _ => Nat.le_trans⟩

/-- Sort rows by ascending postedAt (the orderBy postedAt asc of the retry
query). -/
def sortByPostedAt (l : List Row) : List Row := List.insertionSort postedAtLE l

/-- Environment of one processShopReviews invocation: credentials presence,
the two window starts computed from the clock, the current instant, the
Judge.me fetch outcome (reviews newest-first) and the per-review posting
environment. -/
structure ShopEnv where
  instagramConnected : Bool
  todayStart : Nat
  monthStart : Nat
  now : Nat
  fetch : Except String (List ReviewData)
  postEnv : String → PostEnv

/-- The ProcessResult record accumulated by processShopReviews. -/
structure ProcessResult where
  totalReviews : Nat
  newReviews : Nat
  posted : Nat
  failed : Nat
  skipped : Nat
  dailyLimit : Bool
  monthlyLimit : Bool
  errors : List String
  deriving DecidableEq, Repr

/-- The all-zero ProcessResult the procedure starts from. -/
def emptyResult : ProcessResult :=
  { totalReviews := 0, newReviews := 0, posted := 0, failed := 0, skipped := 0
    dailyLimit := false, monthlyLimit := false, errors := [] }

/-- Running state of the posting loops: remaining per-run budget, counters,
error list, ledger and trace, plus the review ids attempted so far. -/
structure RunAcc where
  quota : Nat
  posted : Nat
  failed : Nat
  errors : List String
  db : List Row
  trace : List Ev
  attempted : List String
  deriving Repr

/-- Retry phase loop of processShopReviews: re-post each stored failed row;
decrement the budget only on success (the source decrements inside the try
block); sleep 2000 ms after every attempt; break once the budget is gone. -/
def retryLoop (shop : String) (env : ShopEnv) : RunAcc → List Row → RunAcc
  | acc, [] => acc
  | acc, rec :: rest =>
    let pr := postStoredReviewToInstagram shop rec (env.postEnv rec.reviewId) env.now acc.db
    let acc2 : RunAcc :=
      match pr.result with
      | .ok _ =>
        { acc with
          db := pr.db
          posted := acc.posted + 1
          quota := acc.quota - 1
          trace := acc.trace ++ [.post rec.reviewId] ++ pr.trace ++ [.sleepMs 2000]
          attempted := acc.attempted ++ [rec.reviewId] }
      | .error e =>
        { acc with
          db := pr.db
          failed := acc.failed + 1
          errors := acc.errors ++ ["Retry " ++ rec.reviewId ++ ": " ++ e]
          trace := acc.trace ++ [.post rec.reviewId] ++ pr.trace ++ [.sleepMs 2000]
          attempted := acc.attempted ++ [rec.reviewId] }
    if acc2.quota = 0 then acc2 else retryLoop shop env acc2 rest

/-- New-review phase loop of processShopReviews: post each selected review
with a 2000 ms delay after each; the budget is not consulted here (the list
was already truncated to the budget). -/
def postNewLoop (shop : String) (env : ShopEnv) : RunAcc → List ReviewData → RunAcc
  | acc, [] => acc
  | acc, r :: rest =>
    let pr := postReviewToInstagram shop r (env.postEnv r.id) env.now acc.db
    let acc2 : RunAcc :=
      match pr.result with
      | .ok _ =>
        { acc with
          db := pr.db
          posted := acc.posted + 1
          trace := acc.trace ++ [.post r.id] ++ pr.trace ++ [.sleepMs 2000]
          attempted := acc.attempted ++ [r.id] }
      | .error e =>
        { acc with
          db := pr.db
          failed := acc.failed + 1
          errors := acc.errors ++ ["Review " ++ r.id ++ ": " ++ e]
          trace := acc.trace ++ [.post r.id] ++ pr.trace ++ [.sleepMs 2000]
          attempted := acc.attempted ++ [r.id] }
    postNewLoop shop env acc2 rest

/-- Outcome of one processShopReviews invocation: the ledger afterwards, the
returned summary or the rethrown fetch error, and the event trace. -/
structure ShopOutcome where
  db : List Row
  res : Except String ProcessResult
  trace : List Ev
  deriving Repr

/-- The failed rows the retry phase loads: status failed for this shop,
oldest first, at most the remaining budget. -/
def failedToRetry (db : List Row) (shop : String) (quota : Nat) : List Row :=
  (sortByPostedAt (db.filter (fun r => r.shop == shop && r.status == "failed"))).take quota

/-- Lines 184-276 of the cron service: the retry phase followed, budget
permitting, by the new-review fetch/filter/post phase. -/
def runPostingPhases (shop : String) (env : ShopEnv) (quota0 : Nat)
    (db : List Row) : ShopOutcome :=
  let acc0 : RunAcc :=
    { quota := quota0, posted := 0, failed := 0, errors := [], db := db
      trace := [], attempted := [] }
  let acc1 :=
    if 0 < quota0 then retryLoop shop env acc0 (failedToRetry db shop quota0) else acc0
  if acc1.quota = 0 then
    { db := acc1.db
      res := .ok { emptyResult with
        posted := acc1.posted
        failed := acc1.failed
        errors := acc1.errors }
      trace := acc1.trace }
  else
    match env.fetch with
    | .error msg =>
      { db := acc1.db
        res := .error msg
        trace := acc1.trace ++ [.fetchReviews] }
    | .ok reviews =>
      let fiveStar := reviews.filter (fun r => r.rating == 5)
      let newOnes := fiveStar.filter (fun r => !hasKey acc1.db shop r.id)
      let toPost := newOnes.reverse.take acc1.quota
      let accStart := { acc1 with trace := acc1.trace ++ [.fetchReviews] }
      let acc2 := postNewLoop shop env accStart toPost
      { db := acc2.db
        res := .ok { emptyResult with
          totalReviews := reviews.length
          newReviews := newOnes.length
          posted := acc2.posted
          failed := acc2.failed
          skipped := newOnes.length - toPost.length
          errors := acc2.errors }
        trace := acc2.trace }

/-- processShopReviews: skip without Instagram credentials, enforce the daily
cap of 10 and the monthly cap (always resolved from an absent plan name, so
always the Free cap of 5), compute the per-run budget and run the posting
phases. -/
def processShopReviews (shop : String) (env : ShopEnv) (db : List Row) : ShopOutcome :=
  if !env.instagramConnected then
    { db := db, res := .ok { emptyResult with errors := ["Instagram not connected"] }
      trace := [] }
  else
    let todayPostCount := countSuccessSince db shop env.todayStart
    if MAX_POSTS_PER_DAY ≤ todayPostCount then
      { db := db, res := .ok { emptyResult with dailyLimit := true }, trace := [] }
    else
      let monthPostCount := countSuccessSince db shop env.monthStart
      match getMonthlyQuotaForPlanName none with
      | some q =>
        if q ≤ monthPostCount then
          { db := db, res := .ok { emptyResult with monthlyLimit := true }, trace := [] }
        else
          runPostingPhases shop env (min MAX_POSTS_PER_RUN (MAX_POSTS_PER_DAY - todayPostCount)) db
      | none =>
        runPostingPhases shop env (min MAX_POSTS_PER_RUN (MAX_POSTS_PER_DAY - todayPostCount)) db

/-- The fields of the webhook payload read by the Judge.me webhook action
(after the review := webhookData.review || webhookData extraction). -/
structure WebhookPayload where
  shop_domain : Option String
  rating : Option Int
  score : Option Int
  body : Option String
  content : Option String
  reviewerDotName : Option String
  reviewer_name : Option String
  name : Option String
  product_title : Option String
  productDotTitle : Option String
  deriving DecidableEq, Repr

/-- Environment of one webhook action invocation: the received signature
header, the hex HMAC-SHA256 digest of the raw body under the shared secret,
the parse outcome of the body, credential presence and the outcomes of the
external calls of the inlined posting flow. -/
structure WebhookEnv where
  hmacHeader : Option String
  computedHmac : String
  payload : Option WebhookPayload
  judgeMeConnected : Bool
  instagramConnected : Bool
  imageGen : Option String
  accessible : Bool
  container : Except String String
  publish : Except String String

/-- crypto.timingSafeEqual on the UTF-8 buffers of two strings: throws when
the byte lengths differ, otherwise compares contents. -/
def timingSafeEqualStr (a b : String) : Except Unit Bool :=
  if a.utf8ByteSize = b.utf8ByteSize then .ok (a == b) else .error ()

/-- Result of one webhook action invocation: HTTP status, the ledger after
the call (the webhook writes no ledger rows), and the event trace. -/
structure WebhookResult where
  status : Nat
  db : List Row
  trace : List Ev
  deriving Repr

/-- The effective rating the webhook action checks: review.rating with
review.score as the JavaScript-falsy fallback. -/
def webhookEffRating (env : WebhookEnv) : Option Int :=
  match env.payload with
  | none => none
  | some p => jsOrInt p.rating p.score

/-- The webhook action of webhooks.judgeme.review: HMAC verification (401 on
a missing header or an equal-length mismatch; a length mismatch makes
timingSafeEqual throw, which the outer catch converts into a 200 response),
payload validation, the rating check, and an inlined posting flow that
creates a container and publishes immediately, with no status polling, no
publish retry and no ledger writes; every failure yields a 200 response. -/
def webhookAction (env : WebhookEnv) (db : List Row) : WebhookResult :=
  match env.hmacHeader with
  | none => { status := 401, db := db, trace := [] }
  | some header =>
    match timingSafeEqualStr header env.computedHmac with
    | .error () => { status := 200, db := db, trace := [] }
    | .ok eq =>
      if !eq then { status := 401, db := db, trace := [] }
      else
        match env.payload with
        | none => { status := 400, db := db, trace := [] }
        | some p =>
          match p.shop_domain with
          | none => { status := 400, db := db, trace := [] }
          | some _shop =>
            if jsOrInt p.rating p.score ≠ some 5 then
              { status := 200, db := db, trace := [] }
            else if !env.judgeMeConnected then
              { status := 200, db := db, trace := [] }
            else if !env.instagramConnected then
              { status := 200, db := db, trace := [] }
            else
              match env.imageGen with
              | none => { status := 200, db := db, trace := [.imageGen] }
              | some _imageUrl =>
                if !env.accessible then
                  { status := 200, db := db, trace := [.imageGen, .verifyImage] }
                else
                  match env.container with
                  | .error _ =>
                    { status := 200, db := db
                      trace := [.imageGen, .verifyImage, .createContainer] }
                  | .ok _cid =>
                    match env.publish with
                    | .error _ =>
                      { status := 200, db := db
                        trace := [.imageGen, .verifyImage, .createContainer, .publishCall] }
                    | .ok _postId =>
                      { status := 200, db := db
                        trace := [.imageGen, .verifyImage, .createContainer, .publishCall] }

/-- State of the run controller of processAllShopsQueued: the two module
globals plus the number of sweeps currently executing. -/
structure CtrlState where
  isProcessing : Bool
  pending : Bool
  running : Nat
  deriving DecidableEq, Repr

/-- External stimuli of the run controller: an incoming run request, or the
completion of the currently executing sweep (at which point the drain loop
either starts another sweep or releases the in-progress flag). -/
inductive CEvent where
  | request
  | sweepDone
  deriving DecidableEq, Repr

/-- Responses of processAllShopsQueued (nothing for internal steps). -/
inductive CResp where
  | started
  | queued
  | internal
  deriving DecidableEq, Repr

/-- The initial controller state at process start. -/
def ctrlInit : CtrlState := { isProcessing := false, pending := false, running := 0 }

/-- One controller step.  The third component counts the sweeps started by
the step.  A request while processing only sets the pending flag and answers
queued; an idle request claims the in-progress flag, clears the pending flag
and starts a sweep.  A sweep completion re-enters the drain loop: with the
pending flag set it clears the flag and starts one more sweep, otherwise it
releases the in-progress flag. -/
def ctrlStep (s : CtrlState) : CEvent → CtrlState × CResp × Nat
  | .request =>
    if s.isProcessing then ({ s with pending := true }, .queued, 0)
    else ({ isProcessing := true, pending := false, running := s.running + 1 }, .started, 1)
  | .sweepDone =>
    match s.running with
    | 0 => (s, .internal, 0)
    | r + 1 =>
      if s.pending then
        ({ isProcessing := true, pending := false, running := r + 1 }, .internal, 1)
      else
        ({ isProcessing := false, pending := false, running := r }, .internal, 0)

/-- Run the controller over an event list, accumulating the number of sweeps
started. -/
def ctrlRun : CtrlState → List CEvent → CtrlState × Nat
  | s, [] => (s, 0)
  | s, e :: es =>
    let st := ctrlStep s e
    let rest := ctrlRun st.1 es
    (rest.1, st.2.2 + rest.2)

/-- The controller states reachable from process start. -/
inductive CReach : CtrlState → Prop where
  | init : CReach ctrlInit
  | step (s : CtrlState) (e : CEvent) : CReach s → CReach (ctrlStep s e).1

/-- A ledger-mutating operation: one per-shop sweep pass, one webhook call,
or one direct post-one-review invocation. -/
inductive LedgerOp where
  | sweep (shop : String) (env : ShopEnv)
  | webhook (env : WebhookEnv)
  | singlePost (shop : String) (review : ReviewData) (env : PostEnv) (now : Nat)

/-- Apply one ledger operation to the ledger. -/
def applyOp (db : List Row) : LedgerOp → List Row
  | .sweep shop env => (processShopReviews shop env db).db
  | .webhook env => (webhookAction env db).db
  | .singlePost shop review env now => (postReviewToInstagram shop review env now db).db

/-- Apply a sequence of ledger operations. -/
def applyOps (db : List Row) : List LedgerOp → List Row
  | [] => db
  | op :: ops => applyOps (applyOp db op) ops

-- Helper lemmas about the upsert.

theorem applyUpdate_shop (f : UpsertFields) (r : Row) : (applyUpdate f r).shop = r.shop := rfl

theorem applyUpdate_reviewId (f : UpsertFields) (r : Row) :
    (applyUpdate f r).reviewId = r.reviewId := rfl

theorem keyMatch_applyUpdate (s rid : String) (f : UpsertFields) (r : Row) :
    keyMatch s rid (applyUpdate f r) = keyMatch s rid r := rfl

/-- The upsert leaves a row with the requested key, status and (when the
field is present) error string in the ledger. -/
theorem upsert_exists (db : List Row) (s rid : String) (now : Nat) (f : UpsertFields) :
    ∃ r ∈ upsertPostedReview db s rid now f,
      r.shop = s ∧ r.reviewId = rid ∧ r.status = f.status ∧
      (f.error.isSome → r.error = f.error) := by
  unfold upsertPostedReview
  by_cases hk : hasKey db s rid
  · simp only [hk, if_true]
    rcases List.any_eq_true.mp hk with ⟨r0, hr0, hkm⟩
    refine ⟨applyUpdate f r0, ?_, ?_, ?_, ?_, ?_⟩
    · exact List.mem_map.mpr ⟨r0, hr0, by simp [hkm]⟩
    · have := (Bool.and_eq_true _ _).mp hkm
      simpa [applyUpdate_shop] using (beq_iff_eq.mp this.1)
    · have := (Bool.and_eq_true _ _).mp hkm
      simpa [applyUpdate_reviewId] using (beq_iff_eq.mp this.2)
    · rfl
    · intro he
      rcases hfe : f.error with _ | e
      · rw [hfe] at he; simp at he
      · simp [applyUpdate, hfe]
  · rw [if_neg hk]
    refine ⟨rowOfCreate s rid now f, ?_, rfl, rfl, rfl, fun _ => rfl⟩
    simp [List.mem_append]

/-- Upserting at one key does not create or destroy rows at any other key. -/
theorem hasKey_upsert_other (db : List Row) (s rid s2 r2 : String) (now : Nat)
    (f : UpsertFields) (h : ¬(s = s2 ∧ rid = r2)) :
    hasKey (upsertPostedReview db s rid now f) s2 r2 = hasKey db s2 r2 := by
  unfold upsertPostedReview
  by_cases hk : hasKey db s rid
  · simp only [hk, if_true]
    unfold hasKey
    rw [List.any_map]
    congr 1
    funext r
    by_cases hm : keyMatch s rid r
    · simp [hm, keyMatch_applyUpdate]
    · simp [hm]
  · rw [if_neg hk]
    unfold hasKey
    rw [List.any_append]
    have : keyMatch s2 r2 (rowOfCreate s rid now f) = false := by
      unfold keyMatch rowOfCreate
      by_cases h1 : s = s2
      · by_cases h2 : rid = r2
        · exact absurd ⟨h1, h2⟩ h
        · simp [h2]
      · simp [h1]
    simp [this]

/-- The upsert preserves the uniqueness invariant of the ledger. -/
theorem uniqueKeys_upsert (db : List Row) (s rid : String) (now : Nat)
    (f : UpsertFields) (h : UniqueKeys db) :
    UniqueKeys (upsertPostedReview db s rid now f) := by
  unfold upsertPostedReview
  by_cases hk : hasKey db s rid
  · simp only [hk, if_true]
    unfold UniqueKeys at h ⊢
    refine List.Pairwise.map _ ?_ h
    intro a b hab
    by_cases ha : keyMatch s rid a <;> by_cases hb : keyMatch s rid b <;>
      simp [ha, hb, applyUpdate_shop, applyUpdate_reviewId, applyUpdate, hab]
  · rw [if_neg hk]
    unfold UniqueKeys at h ⊢
    rw [List.pairwise_append]
    refine ⟨h, List.pairwise_singleton _ _, ?_⟩
    intro a ha b hb
    have hb' : b = rowOfCreate s rid now f := List.mem_singleton.mp hb
    subst hb'
    intro ⟨h1, h2⟩
    apply hk
    unfold hasKey
    refine List.any_eq_true.mpr ⟨a, ha, ?_⟩
    unfold keyMatch
    simp [rowOfCreate] at h1 h2
    simp [h1, h2]

/-- Every branch of postReviewToInstagram mutates the ledger by exactly one
upsert at the key (shop, review.id); when the procedure throws, the upserted
field set has status failed and an error string. -/
theorem postReview_db_spec (shop : String) (review : ReviewData) (env : PostEnv)
    (now : Nat) (db : List Row) :
    ∃ f, (postReviewToInstagram shop review env now db).db =
        upsertPostedReview db shop review.id now f ∧
      (∀ e, (postReviewToInstagram shop review env now db).result = Except.error e →
        f.status = "failed" ∧ f.error.isSome = true) := by
  unfold postReviewToInstagram
  repeat' split
  all_goals
    first
    | exact ⟨_, rfl, fun e he => ⟨rfl, rfl⟩⟩
    | exact ⟨_, rfl, fun e he => by simp at he⟩

/-- postReviewToInstagram preserves the ledger uniqueness invariant. -/
theorem postReview_uniqueKeys (shop : String) (review : ReviewData) (env : PostEnv)
    (now : Nat) (db : List Row) (h : UniqueKeys db) :
    UniqueKeys (postReviewToInstagram shop review env now db).db := by
  obtain ⟨f, hf, _⟩ := postReview_db_spec shop review env now db
  rw [hf]
  exact uniqueKeys_upsert db shop review.id now f h

/-- postReviewToInstagram does not create or destroy rows at keys other than
(shop, review.id). -/
theorem postReview_hasKey_other (shop : String) (review : ReviewData) (env : PostEnv)
    (now : Nat) (db : List Row) (s2 r2 : String) (h : ¬(shop = s2 ∧ review.id = r2)) :
    hasKey (postReviewToInstagram shop review env now db).db s2 r2 = hasKey db s2 r2 := by
  obtain ⟨f, hf, _⟩ := postReview_db_spec shop review env now db
  rw [hf]
  exact hasKey_upsert_other db shop review.id s2 r2 now f h

/-- Number of occurrences of an event in a trace. -/
def countEv (e : Ev) (t : List Ev) : Nat := (t.filter (fun x => x == e)).length

/-- The trace of one postReviewToInstagram invocation never contains a post
event (those are emitted by the calling loops). -/
theorem postReview_trace_no_post (shop : String) (review : ReviewData) (env : PostEnv)
    (now : Nat) (db : List Row) (x : String) :
    Ev.post x ∉ (postReviewToInstagram shop review env now db).trace := by
  unfold postReviewToInstagram
  repeat' split
  all_goals simp

/-- The trace of one postReviewToInstagram invocation never contains a fetch
event. -/
theorem postReview_trace_no_fetch (shop : String) (review : ReviewData) (env : PostEnv)
    (now : Nat) (db : List Row) :
    Ev.fetchReviews ∉ (postReviewToInstagram shop review env now db).trace := by
  unfold postReviewToInstagram
  repeat' split
  all_goals simp

/-- The webhook action never writes to the ledger. -/
theorem webhook_db_unchanged (env : WebhookEnv) (db : List Row) :
    (webhookAction env db).db = db := by
  unfold webhookAction
  repeat' split
  all_goals rfl

/-- The webhook action never polls the container status endpoint. -/
theorem webhook_no_awaitReady (env : WebhookEnv) (db : List Row) (n : Nat) :
    Ev.awaitReady n ∉ (webhookAction env db).trace := by
  unfold webhookAction
  repeat' split
  all_goals simp

/-- The webhook action publishes at most once (no media-not-ready retry). -/
theorem webhook_publish_le_one (env : WebhookEnv) (db : List Row) :
    countEv Ev.publishCall (webhookAction env db).trace ≤ 1 := by
  unfold webhookAction
  repeat' split
  all_goals simp [countEv]

/-- On a payload whose effective rating is not five, the webhook action does
nothing: no events, ledger untouched. -/
theorem webhook_skip_not_five (env : WebhookEnv) (db : List Row)
    (h : webhookEffRating env ≠ some 5) :
    (webhookAction env db).trace = [] ∧ (webhookAction env db).db = db := by
  unfold webhookAction
  repeat' split
  all_goals
    first
    | exact ⟨rfl, rfl⟩
    | (exfalso; apply h; unfold webhookEffRating; simp_all)

/-- In the retry loop, budget plus posted count is conserved: the budget is
decremented exactly on the successful attempts. -/
theorem retryLoop_quota_posted (shop : String) (env : ShopEnv) :
    ∀ (rows : List Row) (acc : RunAcc), 0 < acc.quota →
      (retryLoop shop env acc rows).quota + (retryLoop shop env acc rows).posted =
        acc.quota + acc.posted := by
  intro rows
  induction rows with
  | nil => intro acc _; rfl
  | cons rec rest ih =>
    intro acc h
    unfold retryLoop
    cases hres : (postStoredReviewToInstagram shop rec (env.postEnv rec.reviewId) env.now acc.db).result with
    | ok v =>
      simp only [hres]
      split
      · simp_all; omega
      · next hne =>
        have h2 : 0 < acc.quota - 1 := Nat.pos_of_ne_zero (by simpa using hne)
        rw [ih _ h2]
        simp
        omega
    | error e =>
      simp only [hres]
      split
      · simp
      · next hne =>
        rw [ih _ (by simpa using h)]

/-- Every iteration of the retry loop emits one post event, the inner trace,
then the fixed 2000 ms delay; attempted ids and trace grow in lockstep. -/
theorem retryLoop_blocks (shop : String) (env : ShopEnv) :
    ∀ (rows : List Row) (acc : RunAcc), ∃ blocks : List (String × List Ev),
      (retryLoop shop env acc rows).attempted = acc.attempted ++ blocks.map Prod.fst ∧
      (retryLoop shop env acc rows).trace =
        acc.trace ++ (blocks.map (fun b => Ev.post b.1 :: (b.2 ++ [Ev.sleepMs 2000]))).flatten := by
  intro rows
  induction rows with
  | nil => intro acc; exact ⟨[], by simp [retryLoop], by simp [retryLoop]⟩
  | cons rec rest ih =>
    intro acc
    unfold retryLoop
    cases hres : (postStoredReviewToInstagram shop rec (env.postEnv rec.reviewId) env.now acc.db).result with
    | ok v =>
      simp only [hres]
      split
      · exact ⟨[(rec.reviewId,
          (postStoredReviewToInstagram shop rec (env.postEnv rec.reviewId) env.now acc.db).trace)],
          by simp, by simp⟩
      · obtain ⟨blocks, h1, h2⟩ := ih
          { acc with
            db := (postStoredReviewToInstagram shop rec (env.postEnv rec.reviewId) env.now acc.db).db
            posted := acc.posted + 1
            quota := acc.quota - 1
            trace := acc.trace ++ [.post rec.reviewId] ++
              (postStoredReviewToInstagram shop rec (env.postEnv rec.reviewId) env.now acc.db).trace
              ++ [.sleepMs 2000]
            attempted := acc.attempted ++ [rec.reviewId] }
        refine ⟨(rec.reviewId,
          (postStoredReviewToInstagram shop rec (env.postEnv rec.reviewId) env.now acc.db).trace)
          :: blocks, ?_, ?_⟩
        · rw [h1]; simp
        · rw [h2]; simp
    | error e =>
      simp only [hres]
      split
      · exact ⟨[(rec.reviewId,
          (postStoredReviewToInstagram shop rec (env.postEnv rec.reviewId) env.now acc.db).trace)],
          by simp, by simp⟩
      · obtain ⟨blocks, h1, h2⟩ := ih
          { acc with
            db := (postStoredReviewToInstagram shop rec (env.postEnv rec.reviewId) env.now acc.db).db
            failed := acc.failed + 1
            errors := acc.errors ++ ["Retry " ++ rec.reviewId ++ ": " ++ e]
            trace := acc.trace ++ [.post rec.reviewId] ++
              (postStoredReviewToInstagram shop rec (env.postEnv rec.reviewId) env.now acc.db).trace
              ++ [.sleepMs 2000]
            attempted := acc.attempted ++ [rec.reviewId] }
        refine ⟨(rec.reviewId,
          (postStoredReviewToInstagram shop rec (env.postEnv rec.reviewId) env.now acc.db).trace)
          :: blocks, ?_, ?_⟩
        · rw [h1]; simp
        · rw [h2]; simp

/-- The retry loop stops early only because the budget reached zero:
either the final budget is zero, or every loaded row was attempted. -/
theorem retryLoop_stop (shop : String) (env : ShopEnv) :
    ∀ (rows : List Row) (acc : RunAcc),
      (retryLoop shop env acc rows).quota = 0 ∨
      (retryLoop shop env acc rows).attempted = acc.attempted ++ rows.map Row.reviewId := by
  intro rows
  induction rows with
  | nil => intro acc; right; simp [retryLoop]
  | cons rec rest ih =>
    intro acc
    unfold retryLoop
    cases hres : (postStoredReviewToInstagram shop rec (env.postEnv rec.reviewId) env.now acc.db).result with
    | ok v =>
      simp only [hres]
      split
      · next hz => left; exact hz
      · rcases ih
          { acc with
            db := (postStoredReviewToInstagram shop rec (env.postEnv rec.reviewId) env.now acc.db).db
            posted := acc.posted + 1
            quota := acc.quota - 1
            trace := acc.trace ++ [.post rec.reviewId] ++
              (postStoredReviewToInstagram shop rec (env.postEnv rec.reviewId) env.now acc.db).trace
              ++ [.sleepMs 2000]
            attempted := acc.attempted ++ [rec.reviewId] } with hq | ha
        · left; exact hq
        · right; rw [ha]; simp
    | error e =>
      simp only [hres]
      split
      · next hz => left; exact hz
      · rcases ih
          { acc with
            db := (postStoredReviewToInstagram shop rec (env.postEnv rec.reviewId) env.now acc.db).db
            failed := acc.failed + 1
            errors := acc.errors ++ ["Retry " ++ rec.reviewId ++ ": " ++ e]
            trace := acc.trace ++ [.post rec.reviewId] ++
              (postStoredReviewToInstagram shop rec (env.postEnv rec.reviewId) env.now acc.db).trace
              ++ [.sleepMs 2000]
            attempted := acc.attempted ++ [rec.reviewId] } with hq | ha
        · left; exact hq
        · right; rw [ha]; simp

/-- The attempted ids of the retry loop are the ids of an initial segment of
the loaded rows (the loop never skips ahead). -/
theorem retryLoop_take (shop : String) (env : ShopEnv) :
    ∀ (rows : List Row) (acc : RunAcc), ∃ k,
      (retryLoop shop env acc rows).attempted =
        acc.attempted ++ (rows.take k).map Row.reviewId := by
  intro rows
  induction rows with
  | nil => intro acc; exact ⟨0, by simp [retryLoop]⟩
  | cons rec rest ih =>
    intro acc
    unfold retryLoop
    cases hres : (postStoredReviewToInstagram shop rec (env.postEnv rec.reviewId) env.now acc.db).result with
    | ok v =>
      simp only [hres]
      split
      · exact ⟨1, by simp⟩
      · obtain ⟨k, hk⟩ := ih
          { acc with
            db := (postStoredReviewToInstagram shop rec (env.postEnv rec.reviewId) env.now acc.db).db
            posted := acc.posted + 1
            quota := acc.quota - 1
            trace := acc.trace ++ [.post rec.reviewId] ++
              (postStoredReviewToInstagram shop rec (env.postEnv rec.reviewId) env.now acc.db).trace
              ++ [.sleepMs 2000]
            attempted := acc.attempted ++ [rec.reviewId] }
        exact ⟨k + 1, by rw [hk]; simp⟩
    | error e =>
      simp only [hres]
      split
      · exact ⟨1, by simp⟩
      · obtain ⟨k, hk⟩ := ih
          { acc with
            db := (postStoredReviewToInstagram shop rec (env.postEnv rec.reviewId) env.now acc.db).db
            failed := acc.failed + 1
            errors := acc.errors ++ ["Retry " ++ rec.reviewId ++ ": " ++ e]
            trace := acc.trace ++ [.post rec.reviewId] ++
              (postStoredReviewToInstagram shop rec (env.postEnv rec.reviewId) env.now acc.db).trace
              ++ [.sleepMs 2000]
            attempted := acc.attempted ++ [rec.reviewId] }
        exact ⟨k + 1, by rw [hk]; simp⟩

/-- The retry loop touches no ledger key other than (shop, id) for the ids of
the rows it was given. -/
theorem retryLoop_hasKey (shop : String) (env : ShopEnv) (s2 r2 : String) :
    ∀ (rows : List Row) (acc : RunAcc),
      (∀ rec ∈ rows, ¬(shop = s2 ∧ rec.reviewId = r2)) →
      hasKey (retryLoop shop env acc rows).db s2 r2 = hasKey acc.db s2 r2 := by
  intro rows
  induction rows with
  | nil => intro acc _; simp [retryLoop]
  | cons rec rest ih =>
    intro acc hrows
    have hrec := hrows rec (by simp)
    have hrest : ∀ r ∈ rest, ¬(shop = s2 ∧ r.reviewId = r2) :=
      fun r hr => hrows r (List.mem_cons_of_mem _ hr)
    have hpost : hasKey (postStoredReviewToInstagram shop rec (env.postEnv rec.reviewId)
        env.now acc.db).db s2 r2 = hasKey acc.db s2 r2 :=
      postReview_hasKey_other shop (reviewOfRow rec) _ env.now acc.db s2 r2 hrec
    unfold retryLoop
    cases hres : (postStoredReviewToInstagram shop rec (env.postEnv rec.reviewId) env.now acc.db).result with
    | ok v =>
      simp only [hres]
      split
      · exact hpost
      · rw [ih _ hrest]; exact hpost
    | error e =>
      simp only [hres]
      split
      · exact hpost
      · rw [ih _ hrest]; exact hpost

/-- The retry loop preserves the ledger uniqueness invariant. -/
theorem retryLoop_unique (shop : String) (env : ShopEnv) :
    ∀ (rows : List Row) (acc : RunAcc), UniqueKeys acc.db →
      UniqueKeys (retryLoop shop env acc rows).db := by
  intro rows
  induction rows with
  | nil => intro acc h; simpa [retryLoop] using h
  | cons rec rest ih =>
    intro acc h
    have hpost : UniqueKeys (postStoredReviewToInstagram shop rec (env.postEnv rec.reviewId)
        env.now acc.db).db :=
      postReview_uniqueKeys shop (reviewOfRow rec) _ env.now acc.db h
    unfold retryLoop
    cases hres : (postStoredReviewToInstagram shop rec (env.postEnv rec.reviewId) env.now acc.db).result with
    | ok v =>
      simp only [hres]
      split
      · exact hpost
      · exact ih _ hpost
    | error e =>
      simp only [hres]
      split
      · exact hpost
      · exact ih _ hpost

/-- Every post event emitted by the retry loop names one of the loaded rows. -/
theorem retryLoop_posts (shop : String) (env : ShopEnv) :
    ∀ (rows : List Row) (acc : RunAcc) (x : String),
      Ev.post x ∈ (retryLoop shop env acc rows).trace →
      Ev.post x ∈ acc.trace ∨ x ∈ rows.map Row.reviewId := by
  intro rows
  induction rows with
  | nil => intro acc x h; left; simpa [retryLoop] using h
  | cons rec rest ih =>
    intro acc x h
    have hnopost := postReview_trace_no_post shop (reviewOfRow rec) (env.postEnv rec.reviewId)
      env.now acc.db x
    unfold retryLoop at h
    cases hres : (postStoredReviewToInstagram shop rec (env.postEnv rec.reviewId) env.now acc.db).result with
    | ok v =>
      simp only [hres] at h
      split at h
      · simp only [List.mem_append, List.mem_cons] at h
        rcases h with ((h | h) | h) | h
        · exact Or.inl h
        · rcases h with h | h
          · right; injection h with hx; simp [hx]
          · simp at h
        · exact absurd h hnopost
        · simp at h
      · rcases ih _ _ h with h2 | h2
        · simp only [List.mem_append, List.mem_cons] at h2
          rcases h2 with ((h2 | h2) | h2) | h2
          · exact Or.inl h2
          · rcases h2 with h2 | h2
            · right; injection h2 with hx; simp [hx]
            · simp at h2
          · exact absurd h2 hnopost
          · simp at h2
        · right; simp [h2]
    | error e =>
      simp only [hres] at h
      split at h
      · simp only [List.mem_append, List.mem_cons] at h
        rcases h with ((h | h) | h) | h
        · exact Or.inl h
        · rcases h with h | h
          · right; injection h with hx; simp [hx]
          · simp at h
        · exact absurd h hnopost
        · simp at h
      · rcases ih _ _ h with h2 | h2
        · simp only [List.mem_append, List.mem_cons] at h2
          rcases h2 with ((h2 | h2) | h2) | h2
          · exact Or.inl h2
          · rcases h2 with h2 | h2
            · right; injection h2 with hx; simp [hx]
            · simp at h2
          · exact absurd h2 hnopost
          · simp at h2
        · right; simp [h2]

/-- The retry loop never queries the external review source. -/
theorem retryLoop_no_fetch (shop : String) (env : ShopEnv) :
    ∀ (rows : List Row) (acc : RunAcc),
      Ev.fetchReviews ∈ (retryLoop shop env acc rows).trace →
      Ev.fetchReviews ∈ acc.trace := by
  intro rows
  induction rows with
  | nil => intro acc h; simpa [retryLoop] using h
  | cons rec rest ih =>
    intro acc h
    have hnofetch := postReview_trace_no_fetch shop (reviewOfRow rec) (env.postEnv rec.reviewId)
      env.now acc.db
    unfold retryLoop at h
    cases hres : (postStoredReviewToInstagram shop rec (env.postEnv rec.reviewId) env.now acc.db).result with
    | ok v =>
      simp only [hres] at h
      split at h
      · simp only [List.mem_append, List.mem_cons] at h
        rcases h with ((h | h) | h) | h
        · exact h
        · simp at h
        · exact absurd h hnofetch
        · simp at h
      · have h2 := ih _ h
        simp only [List.mem_append, List.mem_cons] at h2
        rcases h2 with ((h2 | h2) | h2) | h2
        · exact h2
        · simp at h2
        · exact absurd h2 hnofetch
        · simp at h2
    | error e =>
      simp only [hres] at h
      split at h
      · simp only [List.mem_append, List.mem_cons] at h
        rcases h with ((h | h) | h) | h
        · exact h
        · simp at h
        · exact absurd h hnofetch
        · simp at h
      · have h2 := ih _ h
        simp only [List.mem_append, List.mem_cons] at h2
        rcases h2 with ((h2 | h2) | h2) | h2
        · exact h2
        · simp at h2
        · exact absurd h2 hnofetch
        · simp at h2

/-- The new-review loop touches no ledger key other than (shop, id) for the
ids of the reviews it was given. -/
theorem postNewLoop_hasKey (shop : String) (env : ShopEnv) (s2 r2 : String) :
    ∀ (rs : List ReviewData) (acc : RunAcc),
      (∀ r ∈ rs, ¬(shop = s2 ∧ r.id = r2)) →
      hasKey (postNewLoop shop env acc rs).db s2 r2 = hasKey acc.db s2 r2 := by
  intro rs
  induction rs with
  | nil => intro acc _; simp [postNewLoop]
  | cons r rest ih =>
    intro acc hrs
    have hr := hrs r (by simp)
    have hrest : ∀ q ∈ rest, ¬(shop = s2 ∧ q.id = r2) :=
      fun q hq => hrs q (List.mem_cons_of_mem _ hq)
    have hpost : hasKey (postReviewToInstagram shop r (env.postEnv r.id) env.now acc.db).db s2 r2 =
        hasKey acc.db s2 r2 :=
      postReview_hasKey_other shop r _ env.now acc.db s2 r2 hr
    unfold postNewLoop
    cases hres : (postReviewToInstagram shop r (env.postEnv r.id) env.now acc.db).result with
    | ok v => simp only [hres]; rw [ih _ hrest]; exact hpost
    | error e => simp only [hres]; rw [ih _ hrest]; exact hpost

/-- The new-review loop preserves the ledger uniqueness invariant. -/
theorem postNewLoop_unique (shop : String) (env : ShopEnv) :
    ∀ (rs : List ReviewData) (acc : RunAcc), UniqueKeys acc.db →
      UniqueKeys (postNewLoop shop env acc rs).db := by
  intro rs
  induction rs with
  | nil => intro acc h; simpa [postNewLoop] using h
  | cons r rest ih =>
    intro acc h
    have hpost : UniqueKeys (postReviewToInstagram shop r (env.postEnv r.id) env.now acc.db).db :=
      postReview_uniqueKeys shop r _ env.now acc.db h
    unfold postNewLoop
    cases hres : (postReviewToInstagram shop r (env.postEnv r.id) env.now acc.db).result with
    | ok v => simp only [hres]; exact ih _ hpost
    | error e => simp only [hres]; exact ih _ hpost

/-- Every post event emitted by the new-review loop names one of the given
reviews. -/
theorem postNewLoop_posts (shop : String) (env : ShopEnv) :
    ∀ (rs : List ReviewData) (acc : RunAcc) (x : String),
      Ev.post x ∈ (postNewLoop shop env acc rs).trace →
      Ev.post x ∈ acc.trace ∨ x ∈ rs.map ReviewData.id := by
  intro rs
  induction rs with
  | nil => intro acc x h; left; simpa [postNewLoop] using h
  | cons r rest ih =>
    intro acc x h
    have hnopost := postReview_trace_no_post shop r (env.postEnv r.id) env.now acc.db x
    unfold postNewLoop at h
    cases hres : (postReviewToInstagram shop r (env.postEnv r.id) env.now acc.db).result with
    | ok v =>
      simp only [hres] at h
      rcases ih _ _ h with h2 | h2
      · simp only [List.mem_append, List.mem_cons] at h2
        rcases h2 with ((h2 | h2) | h2) | h2
        · exact Or.inl h2
        · rcases h2 with h2 | h2
          · right; injection h2 with hx; simp [hx]
          · simp at h2
        · exact absurd h2 hnopost
        · simp at h2
      · right; simp [h2]
    | error e =>
      simp only [hres] at h
      rcases ih _ _ h with h2 | h2
      · simp only [List.mem_append, List.mem_cons] at h2
        rcases h2 with ((h2 | h2) | h2) | h2
        · exact Or.inl h2
        · rcases h2 with h2 | h2
          · right; injection h2 with hx; simp [hx]
          · simp at h2
        · exact absurd h2 hnopost
        · simp at h2
      · right; simp [h2]

/-- A row of the ledger always matches its own key. -/
theorem hasKey_of_mem (db : List Row) (r : Row) (h : r ∈ db) :
    hasKey db r.shop r.reviewId = true := by
  unfold hasKey
  refine List.any_eq_true.mpr ⟨r, h, ?_⟩
  unfold keyMatch
  simp

/-- The rows loaded by the retry query belong to the ledger, are for the
requested shop and carry status failed. -/
theorem failedToRetry_mem (db : List Row) (shop : String) (q : Nat) (rec : Row)
    (h : rec ∈ failedToRetry db shop q) :
    rec ∈ db ∧ rec.shop = shop ∧ rec.status = "failed" := by
  unfold failedToRetry sortByPostedAt at h
  have h1 := List.mem_of_mem_take h
  have h2 := (List.perm_insertionSort postedAtLE _).mem_iff.mp h1
  have h3 := List.mem_filter.mp h2
  refine ⟨h3.1, ?_, ?_⟩
  · have := h3.2
    simp only [Bool.and_eq_true, beq_iff_eq] at this
    exact this.1
  · have := h3.2
    simp only [Bool.and_eq_true, beq_iff_eq] at this
    exact this.2

/-- The retry query returns at most the remaining budget. -/
theorem failedToRetry_length (db : List Row) (shop : String) (q : Nat) :
    (failedToRetry db shop q).length ≤ q := by
  unfold failedToRetry
  simp [List.length_take_le]

/-- The retry query returns rows ordered by ascending postedAt. -/
theorem failedToRetry_sorted (db : List Row) (shop : String) (q : Nat) :
    List.Sorted postedAtLE (failedToRetry db shop q) := by
  unfold failedToRetry sortByPostedAt
  exact (List.sorted_insertionSort postedAtLE _).sublist (List.take_sublist _ _)

/-- The posting phases preserve the ledger uniqueness invariant. -/
theorem runPosting_unique (shop : String) (env : ShopEnv) (q : Nat) (db : List Row)
    (h : UniqueKeys db) : UniqueKeys (runPostingPhases shop env q db).db := by
  unfold runPostingPhases
  simp only
  by_cases hq : 0 < q
  all_goals
    simp only [hq, if_true, if_false]
    split
    · first
      | exact retryLoop_unique shop env _ _ h
      | exact h
    · split
      · first
        | exact retryLoop_unique shop env _ _ h
        | exact h
      · first
        | exact postNewLoop_unique shop env _ _ (retryLoop_unique shop env _ _ h)
        | exact postNewLoop_unique shop env _ _ h

/-- Key isolation of the posting phases: a key absent from the ledger whose
id is never carried by a rating-five fetched review is neither written nor
posted. -/
theorem runPosting_key_isolation (shop : String) (env : ShopEnv) (q : Nat)
    (db : List Row) (i : String)
    (hrev : ∀ reviews, env.fetch = Except.ok reviews →
      ∀ r ∈ reviews, r.id = i → ¬(r.rating = 5))
    (hdb : hasKey db shop i = false) :
    hasKey (runPostingPhases shop env q db).db shop i = false ∧
    Ev.post i ∉ (runPostingPhases shop env q db).trace := by
  have hrows : ∀ rec ∈ failedToRetry db shop q, ¬(shop = shop ∧ rec.reviewId = i) := by
    intro rec hm ⟨_, hri⟩
    obtain ⟨hmem, hshop, _⟩ := failedToRetry_mem db shop q rec hm
    have := hasKey_of_mem db rec hmem
    rw [hshop, hri] at this
    rw [this] at hdb
    exact Bool.true_eq_false.mp hdb
  unfold runPostingPhases
  simp only
  by_cases hq : 0 < q
  · simp only [hq, if_true]
    have hk1 : hasKey (retryLoop shop env
        { quota := q, posted := 0, failed := 0, errors := [], db := db,
          trace := [], attempted := [] } (failedToRetry db shop q)).db shop i = false := by
      rw [retryLoop_hasKey shop env shop i _ _ hrows]
      exact hdb
    have hp1 : Ev.post i ∉ (retryLoop shop env
        { quota := q, posted := 0, failed := 0, errors := [], db := db,
          trace := [], attempted := [] } (failedToRetry db shop q)).trace := by
      intro hmem
      rcases retryLoop_posts shop env _ _ _ hmem with hc | hc
      · simp at hc
      · rcases List.mem_map.mp hc with ⟨rec, hrm, hid⟩
        exact hrows rec hrm ⟨rfl, hid⟩
    split
    · exact ⟨hk1, hp1⟩
    · split
      · refine ⟨hk1, ?_⟩
        intro hmem
        simp only [List.mem_append] at hmem
        rcases hmem with hmem | hmem
        · exact hp1 hmem
        · simp at hmem
      · next reviews heq =>
        have htp : ∀ r ∈ (((reviews.filter (fun r => r.rating == 5)).filter
            (fun r => !hasKey (retryLoop shop env
              { quota := q, posted := 0, failed := 0, errors := [], db := db,
                trace := [], attempted := [] } (failedToRetry db shop q)).db shop r.id)).reverse.take
            (retryLoop shop env
              { quota := q, posted := 0, failed := 0, errors := [], db := db,
                trace := [], attempted := [] } (failedToRetry db shop q)).quota),
            ¬(shop = shop ∧ r.id = i) := by
          intro r hm ⟨_, hri⟩
          have h1 := List.mem_of_mem_take hm
          have h2 := List.mem_reverse.mp h1
          have h3 := (List.mem_filter.mp h2).1
          have h4 := List.mem_filter.mp h3
          exact hrev reviews heq r h4.1 hri (by simpa using h4.2)
        constructor
        · rw [postNewLoop_hasKey shop env shop i _ _ htp]
          exact hk1
        · intro hmem
          rcases postNewLoop_posts shop env _ _ _ hmem with hc | hc
          · simp only [List.mem_append] at hc
            rcases hc with hc | hc
            · exact hp1 hc
            · simp at hc
          · rcases List.mem_map.mp hc with ⟨r, hrm, hid⟩
            exact htp r hrm ⟨rfl, hid⟩
  · simp only [hq, if_false]
    split
    · exact ⟨hdb, by simp⟩
    · split
      · refine ⟨hdb, ?_⟩
        intro hmem
        simp at hmem
      · next reviews heq =>
        have htp : ∀ r ∈ (((reviews.filter (fun r => r.rating == 5)).filter
            (fun r => !hasKey db shop r.id)).reverse.take q),
            ¬(shop = shop ∧ r.id = i) := by
          intro r hm ⟨_, hri⟩
          have h1 := List.mem_of_mem_take hm
          have h2 := List.mem_reverse.mp h1
          have h3 := (List.mem_filter.mp h2).1
          have h4 := List.mem_filter.mp h3
          exact hrev reviews heq r h4.1 hri (by simpa using h4.2)
        constructor
        · rw [postNewLoop_hasKey shop env shop i _ _ htp]
          exact hdb
        · intro hmem
          rcases postNewLoop_posts shop env _ _ _ hmem with hc | hc
          · simp at hc
          · rcases List.mem_map.mp hc with ⟨r, hrm, hid⟩
            exact htp r hrm ⟨rfl, hid⟩

/-- The new-review loop appends to the trace; every post event it appends
names one of the given reviews. -/
theorem postNewLoop_extends (shop : String) (env : ShopEnv) :
    ∀ (rs : List ReviewData) (acc : RunAcc), ∃ t,
      (postNewLoop shop env acc rs).trace = acc.trace ++ t ∧
      (∀ x, Ev.post x ∈ t → x ∈ rs.map ReviewData.id) := by
  intro rs
  induction rs with
  | nil => intro acc; exact ⟨[], by simp [postNewLoop], by simp⟩
  | cons r rest ih =>
    intro acc
    have hnopost := fun x => postReview_trace_no_post shop r (env.postEnv r.id) env.now acc.db x
    unfold postNewLoop
    cases hres : (postReviewToInstagram shop r (env.postEnv r.id) env.now acc.db).result with
    | ok v =>
      simp only [hres]
      obtain ⟨t, ht, hp⟩ := ih
        { acc with
          db := (postReviewToInstagram shop r (env.postEnv r.id) env.now acc.db).db
          posted := acc.posted + 1
          trace := acc.trace ++ [.post r.id] ++
            (postReviewToInstagram shop r (env.postEnv r.id) env.now acc.db).trace
            ++ [.sleepMs 2000]
          attempted := acc.attempted ++ [r.id] }
      refine ⟨[Ev.post r.id] ++
        (postReviewToInstagram shop r (env.postEnv r.id) env.now acc.db).trace
        ++ [Ev.sleepMs 2000] ++ t, ?_, ?_⟩
      · rw [ht]; simp
      · intro x hx
        simp only [List.mem_append, List.mem_cons] at hx
        rcases hx with (((hx | hx) | hx) | hx) | hx
        · injection hx with hx; simp [hx]
        · simp at hx
        · exact absurd hx (hnopost x)
        · simp at hx
        · have := hp x hx
          simp only [List.mem_map] at this ⊢
          rcases this with ⟨rr, hrr, hrid⟩
          exact ⟨rr, List.mem_cons_of_mem _ hrr, hrid⟩
    | error e =>
      simp only [hres]
      obtain ⟨t, ht, hp⟩ := ih
        { acc with
          db := (postReviewToInstagram shop r (env.postEnv r.id) env.now acc.db).db
          failed := acc.failed + 1
          errors := acc.errors ++ ["Review " ++ r.id ++ ": " ++ e]
          trace := acc.trace ++ [.post r.id] ++
            (postReviewToInstagram shop r (env.postEnv r.id) env.now acc.db).trace
            ++ [.sleepMs 2000]
          attempted := acc.attempted ++ [r.id] }
      refine ⟨[Ev.post r.id] ++
        (postReviewToInstagram shop r (env.postEnv r.id) env.now acc.db).trace
        ++ [Ev.sleepMs 2000] ++ t, ?_, ?_⟩
      · rw [ht]; simp
      · intro x hx
        simp only [List.mem_append, List.mem_cons] at hx
        rcases hx with (((hx | hx) | hx) | hx) | hx
        · injection hx with hx; simp [hx]
        · simp at hx
        · exact absurd hx (hnopost x)
        · simp at hx
        · have := hp x hx
          simp only [List.mem_map] at this ⊢
          rcases this with ⟨rr, hrr, hrid⟩
          exact ⟨rr, List.mem_cons_of_mem _ hrr, hrid⟩

/-- processShopReviews preserves the ledger uniqueness invariant. -/
theorem processShop_unique (shop : String) (env : ShopEnv) (db : List Row)
    (h : UniqueKeys db) : UniqueKeys (processShopReviews shop env db).db := by
  unfold processShopReviews
  dsimp only
  repeat' split
  all_goals
    first
    | exact h
    | exact runPosting_unique shop env _ db h

/-- Key isolation of the per-shop procedure. -/
theorem processShop_key_isolation (shop : String) (env : ShopEnv) (db : List Row)
    (i : String)
    (hrev : ∀ reviews, env.fetch = Except.ok reviews →
      ∀ r ∈ reviews, r.id = i → ¬(r.rating = 5))
    (hdb : hasKey db shop i = false) :
    hasKey (processShopReviews shop env db).db shop i = false ∧
    Ev.post i ∉ (processShopReviews shop env db).trace := by
  unfold processShopReviews
  dsimp only
  repeat' split
  all_goals
    first
    | exact ⟨hdb, by simp⟩
    | exact runPosting_key_isolation shop env _ db i hrev hdb

/-- Phase order of the posting phases: the trace splits into a retry part —
free of fetch events, whose post events all name loaded failed rows — and a
remainder whose post events all name rating-five fetched reviews. -/
theorem runPosting_phase_order (shop : String) (env : ShopEnv) (q : Nat) (db : List Row) :
    ∃ tR tN, (runPostingPhases shop env q db).trace = tR ++ tN ∧
      Ev.fetchReviews ∉ tR ∧
      (∀ x, Ev.post x ∈ tR → x ∈ (failedToRetry db shop q).map Row.reviewId) ∧
      (∀ x, Ev.post x ∈ tN → ∃ reviews, env.fetch = Except.ok reviews ∧
        ∃ r ∈ reviews, r.rating = 5 ∧ r.id = x) := by
  unfold runPostingPhases
  dsimp only
  by_cases hq : 0 < q
  · simp only [hq, if_true]
    have hnf : Ev.fetchReviews ∉ (retryLoop shop env
        { quota := q, posted := 0, failed := 0, errors := [], db := db,
          trace := [], attempted := [] } (failedToRetry db shop q)).trace := by
      intro hmem
      have := retryLoop_no_fetch shop env _ _ hmem
      simp at this
    have hpR : ∀ x, Ev.post x ∈ (retryLoop shop env
        { quota := q, posted := 0, failed := 0, errors := [], db := db,
          trace := [], attempted := [] } (failedToRetry db shop q)).trace →
        x ∈ (failedToRetry db shop q).map Row.reviewId := by
      intro x hmem
      rcases retryLoop_posts shop env _ _ _ hmem with hc | hc
      · simp at hc
      · exact hc
    split
    · exact ⟨_, [], by simp, hnf, hpR, by simp⟩
    · split
      · refine ⟨_, [Ev.fetchReviews], rfl, hnf, hpR, ?_⟩
        intro x hx
        simp at hx
      · next reviews heq =>
        obtain ⟨t, ht, hp⟩ := postNewLoop_extends shop env _ _
        refine ⟨_, Ev.fetchReviews :: t, by rw [ht]; simp, hnf, hpR, ?_⟩
        intro x hx
        rcases List.mem_cons.mp hx with hx | hx
        · simp at hx
        · have := hp x hx
          rcases List.mem_map.mp this with ⟨r, hrm, hid⟩
          have h1 := List.mem_of_mem_take hrm
          have h2 := List.mem_reverse.mp h1
          have h3 := (List.mem_filter.mp h2).1
          have h4 := List.mem_filter.mp h3
          exact ⟨reviews, heq, r, h4.1, by simpa using h4.2, hid⟩
  · simp only [hq, if_false]
    split
    · exact ⟨[], [], by simp, by simp, by simp, by simp⟩
    · split
      · refine ⟨[], [Ev.fetchReviews], by simp, by simp, by simp, ?_⟩
        intro x hx
        simp at hx
      · next reviews heq =>
        obtain ⟨t, ht, hp⟩ := postNewLoop_extends shop env _ _
        refine ⟨[], Ev.fetchReviews :: t, by rw [ht]; simp, by simp, by simp, ?_⟩
        intro x hx
        rcases List.mem_cons.mp hx with hx | hx
        · simp at hx
        · have := hp x hx
          rcases List.mem_map.mp this with ⟨r, hrm, hid⟩
          have h1 := List.mem_of_mem_take hrm
          have h2 := List.mem_reverse.mp h1
          have h3 := (List.mem_filter.mp h2).1
          have h4 := List.mem_filter.mp h3
          exact ⟨reviews, heq, r, h4.1, by simpa using h4.2, hid⟩

/-- When the retry phase exhausts the budget, the posting phases end without
querying the external review source. -/
theorem runPosting_exhausted_no_fetch (shop : String) (env : ShopEnv) (q : Nat)
    (db : List Row)
    (h : (retryLoop shop env
      { quota := q, posted := 0, failed := 0, errors := [], db := db,
        trace := [], attempted := [] } (failedToRetry db shop q)).quota = 0) :
    Ev.fetchReviews ∉ (runPostingPhases shop env q db).trace := by
  unfold runPostingPhases
  dsimp only
  by_cases hq : 0 < q
  · simp only [hq, if_true]
    rw [if_pos h]
    intro hmem
    have := retryLoop_no_fetch shop env _ _ hmem
    simp at this
  · simp only [hq, if_false]
    have hz : q = 0 := Nat.eq_zero_of_not_pos hq
    rw [if_pos (by simpa using hz)]
    simp

/-- With Instagram connected, the daily cap clear and at least five successes
this month, the per-shop procedure reports the monthly limit and does not
touch the ledger. -/
theorem processShop_monthly (shop : String) (env : ShopEnv) (db : List Row)
    (hconn : env.instagramConnected = true)
    (hday : countSuccessSince db shop env.todayStart < MAX_POSTS_PER_DAY)
    (hmonth : 5 ≤ countSuccessSince db shop env.monthStart) :
    (processShopReviews shop env db).res =
      Except.ok { emptyResult with monthlyLimit := true } ∧
    (processShopReviews shop env db).db = db ∧
    (processShopReviews shop env db).trace = [] := by
  unfold processShopReviews
  rw [hconn]
  dsimp only
  rw [if_neg (by simp)]
  rw [if_neg (Nat.not_le_of_lt hday)]
  simp only [getMonthlyQuotaForPlanName]
  rw [if_pos hmonth]
  exact ⟨rfl, rfl, rfl⟩

/-- Inductive invariant of the run controller: at most one sweep runs at any
reachable state, exactly one runs while the in-progress flag is held, and an
idle controller has no sweep running and no pending request. -/
theorem creach_invariant (s : CtrlState) (h : CReach s) :
    s.running ≤ 1 ∧ (s.isProcessing = false → s.running = 0 ∧ s.pending = false) ∧
      (s.isProcessing = true → s.running = 1) := by
  induction h with
  | init => simp [ctrlInit]
  | step s e hs ih =>
    obtain ⟨ip, pd, rn⟩ := s
    rcases ih with ⟨h1, h2, h3⟩
    simp only at h1 h2 h3
    cases e <;> cases ip <;> cases pd <;> cases rn <;>
      simp_all [ctrlStep]

/-- Sequential composition of controller runs. -/
theorem ctrlRun_append (l1 l2 : List CEvent) :
    ∀ s, ctrlRun s (l1 ++ l2) =
      ((ctrlRun (ctrlRun s l1).1 l2).1,
        (ctrlRun s l1).2 + (ctrlRun (ctrlRun s l1).1 l2).2) := by
  induction l1 with
  | nil => intro s; simp [ctrlRun]
  | cons e es ih =>
    intro s
    simp only [List.cons_append, ctrlRun, List.append_eq]
    rw [ih]
    simp [Nat.add_assoc]

/-- Requests arriving while a sweep is executing leave the controller in the
same running state with the pending flag held and start no sweep. -/
theorem ctrlRun_requests_saturate :
    ∀ k, ctrlRun { isProcessing := true, pending := true, running := 1 }
      (List.replicate k CEvent.request) =
      ({ isProcessing := true, pending := true, running := 1 }, 0) := by
  intro k
  induction k with
  | zero => rfl
  | succ n ih =>
    simp only [List.replicate_succ, ctrlRun, ctrlStep]
    simp [ih]

-- Concrete fixtures used by witnesses and counterexamples.

/-- A shop domain used in concrete scenarios. -/
def theShop : String := "s1.myshopify.com"

/-- A container-status endpoint that always reports FINISHED. -/
def pollAlwaysFinished : Nat → PollStatus := fun _ => PollStatus.finished

/-- A container-status endpoint whose container becomes ready at the seventh
poll. -/
def pollReadyAt7 : Nat → PollStatus :=
  fun n => if n < 7 then PollStatus.inProgress else PollStatus.finished

/-- A posting environment in which every external call succeeds. -/
def envAllOk : PostEnv :=
  { imageGen := some "https://cdn.example.com/img.png"
    accessible := true
    container := Except.ok "c1"
    initPoll := pollAlwaysFinished
    publish1 := Except.ok "post1"
    recheckPoll := pollAlwaysFinished
    publish2 := Except.ok "post2" }

/-- A posting environment in which image generation returns null. -/
def envImageFail : PostEnv := { envAllOk with imageGen := none }

/-- A five-star review fixture. -/
def review1 : ReviewData :=
  { id := "r1", rating := 5, body := some "Great!", content := none
    reviewerDotName := some "Ana", reviewer_name := none, name := none
    product_title := some "Widget", productDotTitle := none }

/-- A second, new five-star review. -/
def reviewNew : ReviewData := { review1 with id := "n1" }

/-- A three-star review. -/
def reviewLow : ReviewData := { review1 with id := "l1", rating := 3 }

/-- A stored failed attempt for review r0. -/
def failedRow0 : Row :=
  { shop := theShop, reviewId := "r0", productTitle := some "Widget"
    reviewerName := some "Ana", rating := 5, reviewText := some "Great!"
    instagramPostId := none, imageUrl := some "https://cdn.example.com/old.png"
    status := "failed", error := some "previous failure", postedAt := 0 }

/-- A stored successful attempt. -/
def successRow (rid : String) : Row :=
  { shop := theShop, reviewId := rid, productTitle := none, reviewerName := none
    rating := 5, reviewText := none, instagramPostId := some "p"
    imageUrl := some "https://cdn.example.com/img.png", status := "success"
    error := none, postedAt := 10 }

/-- Shop environment for the budget-of-one scenario: one new five-star review
available, the stored failed row fails again on retry. -/
def shopEnvC5 : ShopEnv :=
  { instagramConnected := true, todayStart := 0, monthStart := 0, now := 100
    fetch := Except.ok [reviewNew]
    postEnv := fun rid => if rid == "r0" then envImageFail else envAllOk }

/-- Same scenario but the retry succeeds. -/
def shopEnvC5ok : ShopEnv := { shopEnvC5 with postEnv := fun _ => envAllOk }

/-- Shop environment with an empty fetch and failing posts. -/
def shopEnvRetryFail : ShopEnv :=
  { shopEnvC5 with fetch := Except.ok [], postEnv := fun _ => envImageFail }

/-- Ledger with five successes of the current month. -/
def dbC6 : List Row :=
  [successRow "a1", successRow "a2", successRow "a3", successRow "a4", successRow "a5"]

/-- Shop environment for the monthly-cap scenario. -/
def shopEnvC6 : ShopEnv :=
  { instagramConnected := true, todayStart := 0, monthStart := 0, now := 100
    fetch := Except.ok [], postEnv := fun _ => envAllOk }

/-- Retry accumulator with a budget of one over the single failed row. -/
def accQ1 : RunAcc :=
  { quota := 1, posted := 0, failed := 0, errors := [], db := [failedRow0]
    trace := [], attempted := [] }

/-- The media-not-ready publish error (code 9007, subcode 2207027). -/
def pubErr9007 : PubError := { text := "notready", code := some 9007, subcode := some 2207027 }

/-- A publish error with a different platform code. -/
def pubErrOther : PubError := { text := "boom", code := some 100, subcode := none }

/-- Environment in which the container is ready only at the seventh poll and
the first publish fails with the media-not-ready pair: the recheck with bound
five times out. -/
def envC7 : PostEnv :=
  { imageGen := some "https://cdn.example.com/img.png"
    accessible := true
    container := Except.ok "c1"
    initPoll := pollReadyAt7
    publish1 := Except.error pubErr9007
    recheckPoll := pollReadyAt7
    publish2 := Except.ok "post2" }

/-- Environment in which the first publish fails with an unrelated code. -/
def envC7w : PostEnv :=
  { envC7 with initPoll := pollAlwaysFinished, publish1 := Except.error pubErrOther }

/-- A preexisting successful row for review r1 holding an older image URL. -/
def rowOldImg : Row :=
  { shop := theShop, reviewId := "r1", productTitle := some "Old"
    reviewerName := some "Bob", rating := 4, reviewText := some "Old text"
    instagramPostId := some "oldpost", imageUrl := some "https://cdn.example.com/old.png"
    status := "success", error := none, postedAt := 3 }

/-- A sixty-four character digest fixture standing for the hex HMAC. -/
def hex64 : String := "0123456789abcdef0123456789abcdef0123456789abcdef0123456789abcdef"

/-- The webhook payload of a five-star review. -/
def payload1 : WebhookPayload :=
  { shop_domain := some theShop, rating := some 5, score := none
    body := some "Great!", content := none, reviewerDotName := some "Ana"
    reviewer_name := none, name := none, product_title := some "Widget"
    productDotTitle := none }

/-- Webhook environment: valid signature, five-star payload, both services
connected, but image generation fails. -/
def wkImgFail : WebhookEnv :=
  { hmacHeader := some hex64, computedHmac := hex64, payload := some payload1
    judgeMeConnected := true, instagramConnected := true, imageGen := none
    accessible := true, container := Except.ok "c1", publish := Except.ok "post1" }

/-- Webhook environment whose signature header has a different byte length
than the computed digest. -/
def wkShort : WebhookEnv := { wkImgFail with hmacHeader := some "abc" }

/-- Requests arriving while a sweep runs set the pending flag and start
nothing; the state afterwards still runs exactly the one sweep. -/
theorem ctrlRun_requests_from_sweep (m : Nat) :
    ctrlRun { isProcessing := true, pending := false, running := 1 }
      (List.replicate (m + 1) CEvent.request) =
      ({ isProcessing := true, pending := true, running := 1 }, 0) := by
  simp only [List.replicate_succ, ctrlRun, ctrlStep]
  simp [ctrlRun_requests_saturate m]

-- Claim theorems.

/-- On a rejection-free run the full embedding coincides with the
response-level one. -/
theorem postReviewFull_agrees (shop : String) (review : ReviewData)
    (env : PostEnvFull) (now : Nat) (db : List Row)
    (hcr : env.containerReject = none) (hpr : env.publishReject = none)
    (hp2 : env.publish2Reject = none) (hpj : env.publishJsonReject = none) :
    postReviewToInstagramFull shop review env now db =
      postReviewToInstagram shop review (forgetRejects env) now db := by
  rcases env with ⟨ig, acc, cr, cont, ip, pr, p1, rp, p2r, p2, pj⟩
  dsimp only at hcr hpr hp2 hpj
  subst hcr
  subst hpr
  subst hp2
  subst hpj
  rfl

/-- Every branch of the full embedding either leaves the ledger untouched (a
naked promise rejection) or performs exactly one upsert at (shop, review.id);
when the container-create fetch, the first publish fetch and the final json
read all yield (no naked rejection), every branch upserts, and a thrown run
upserts a failed field set. -/
theorem postReviewFull_db_spec (shop : String) (review : ReviewData)
    (env : PostEnvFull) (now : Nat) (db : List Row)
    (hcr : env.containerReject = none) (hpr : env.publishReject = none)
    (hpj : env.publishJsonReject = none) :
    ∃ f, (postReviewToInstagramFull shop review env now db).db =
        upsertPostedReview db shop review.id now f ∧
      (∀ e, (postReviewToInstagramFull shop review env now db).result = Except.error e →
        f.status = "failed" ∧ f.error.isSome = true) := by
  rcases env with ⟨ig, acc, cr, cont, ip, pr, p1, rp, p2r, p2, pj⟩
  dsimp only at hcr hpr hpj
  subst hcr
  subst hpr
  subst hpj
  unfold postReviewToInstagramFull
  repeat' split
  all_goals
    first
    | exact ⟨_, rfl, fun e he => ⟨rfl, rfl⟩⟩
    | exact ⟨_, rfl, fun e he => by simp at he⟩
    | simp_all

/-- A full environment in which every call succeeds but image generation
returns null (no rejections anywhere). -/
def envFullImageFail : PostEnvFull :=
  { imageGen := none, accessible := true, containerReject := none
    container := Except.ok "c1", initPoll := pollAlwaysFinished
    publishReject := none, publish1 := Except.ok "post1"
    recheckPoll := pollAlwaysFinished, publish2Reject := none
    publish2 := Except.ok "post2", publishJsonReject := none }

/-- A full environment in which the awaited container-create fetch rejects
(for example a network failure): the source has no try around that await, so
the rejection propagates out of postReviewToInstagram. -/
def envFullRejected : PostEnvFull :=
  { envFullImageFail with
    imageGen := some "https://cdn.example.com/img.png"
    containerReject := some "TypeError: fetch failed" }

/-- C1 counterexample: a rejection of the awaited container-create fetch
makes postReviewToInstagram terminate by throwing while the ledger stays
empty — no PostAttempt row with status failed was upserted before the
exception propagated. -/
theorem C1_counterexample :
    (postReviewToInstagramFull theShop review1 envFullRejected 0 []).result =
      Except.error "TypeError: fetch failed" ∧
    (postReviewToInstagramFull theShop review1 envFullRejected 0 []).db = ([] : List Row) := by
  constructor <;> decide

/-- C1 amended: every failure path that receives responses from the external
calls upserts a failed row with an error string before throwing (including
the swallowed rejections inside the publish retry block); but a promise
rejection of the container-create fetch or its body reads, of the first
publish fetch or its failure-body read, or of the final success-body json
read, propagates to the caller with no ledger write.  Stated: a thrown run
with none of those naked rejections leaves a failed row for
(shop, review id) with a non-null error string. -/
theorem C1_failure_upserts_amended (shop : String) (review : ReviewData)
    (env : PostEnvFull) (now : Nat) (db : List Row) (e : String)
    (hcr : env.containerReject = none) (hpr : env.publishReject = none)
    (hpj : env.publishJsonReject = none)
    (h : (postReviewToInstagramFull shop review env now db).result = Except.error e) :
    ∃ r ∈ (postReviewToInstagramFull shop review env now db).db,
      r.shop = shop ∧ r.reviewId = review.id ∧ r.status = "failed" ∧
      r.error.isSome = true := by
  obtain ⟨f, hdb, hprop⟩ := postReviewFull_db_spec shop review env now db hcr hpr hpj
  obtain ⟨hstatus, herr⟩ := hprop e h
  rw [hdb]
  obtain ⟨r, hr, h1, h2, h3, h4⟩ := upsert_exists db shop review.id now f
  refine ⟨r, hr, h1, h2, hstatus ▸ h3, ?_⟩
  rw [h4 herr]
  exact herr

/-- Witness for the amended C1: a rejection-free run whose image generation
fails throws and leaves a failed row with an error string. -/
theorem C1_failure_upserts_amended_witness :
    ∃ r ∈ (postReviewToInstagramFull theShop review1 envFullImageFail 0 []).db,
      r.shop = theShop ∧ r.reviewId = review1.id ∧ r.status = "failed" ∧
      r.error.isSome = true :=
  C1_failure_upserts_amended theShop review1 envFullImageFail 0 []
    "Image generation failed" rfl rfl rfl (by decide)

/-- C2 counterexample: a retry attempt that fails leaves the budget at 1 —
the budget is not decremented on every attempt regardless of outcome. -/
theorem C2_counterexample :
    (retryLoop theShop shopEnvRetryFail accQ1 [failedRow0]).quota = 1 ∧
    (retryLoop theShop shopEnvRetryFail accQ1 [failedRow0]).failed = 1 := by
  constructor <;> decide

/-- C2 amended: the retry phase decrements the budget exactly on successful
attempts (budget plus posted count is conserved); every attempt emits a post
event, the inner events, then the fixed 2000 ms delay; the loop stops early
only because the budget reached zero, otherwise it attempts every loaded
row. -/
theorem C2_retry_budget_amended :
    (∀ (shop : String) (env : ShopEnv) (rows : List Row) (acc : RunAcc),
      0 < acc.quota →
      (retryLoop shop env acc rows).quota + (retryLoop shop env acc rows).posted =
        acc.quota + acc.posted) ∧
    (∀ (shop : String) (env : ShopEnv) (rows : List Row) (acc : RunAcc),
      ∃ blocks : List (String × List Ev),
        (retryLoop shop env acc rows).attempted = acc.attempted ++ blocks.map Prod.fst ∧
        (retryLoop shop env acc rows).trace = acc.trace ++
          (blocks.map (fun b => Ev.post b.1 :: (b.2 ++ [Ev.sleepMs 2000]))).flatten) ∧
    (∀ (shop : String) (env : ShopEnv) (rows : List Row) (acc : RunAcc),
      (retryLoop shop env acc rows).quota = 0 ∨
      (retryLoop shop env acc rows).attempted = acc.attempted ++ rows.map Row.reviewId) :=
  ⟨fun shop env rows acc h => retryLoop_quota_posted shop env rows acc h,
   fun shop env rows acc => retryLoop_blocks shop env rows acc,
   fun shop env rows acc => retryLoop_stop shop env rows acc⟩

/-- Witness for the amended C2 on a concrete run: one failing retry conserves
budget plus posted. -/
theorem C2_retry_budget_amended_witness :
    (retryLoop theShop shopEnvRetryFail accQ1 [failedRow0]).quota +
      (retryLoop theShop shopEnvRetryFail accQ1 [failedRow0]).posted =
      accQ1.quota + accQ1.posted :=
  C2_retry_budget_amended.1 theShop shopEnvRetryFail [failedRow0] accQ1 (by decide)

/-- C3: a request during a sweep only flags the pending run and answers
queued; every reachable controller state runs at most one sweep; any number
of requests during one sweep coalesce into exactly one additional sweep
before the in-progress flag clears. -/
theorem C3_run_coalescing :
    (∀ s : CtrlState, s.isProcessing = true →
      ctrlStep s CEvent.request = ({ s with pending := true }, CResp.queued, 0)) ∧
    (∀ s : CtrlState, CReach s → s.running ≤ 1) ∧
    (∀ k : Nat, 0 < k →
      ctrlRun { isProcessing := true, pending := false, running := 1 }
        (List.replicate k CEvent.request ++ [CEvent.sweepDone]) =
        ({ isProcessing := true, pending := false, running := 1 }, 1) ∧
      ctrlRun { isProcessing := true, pending := false, running := 1 }
        (List.replicate k CEvent.request ++ [CEvent.sweepDone, CEvent.sweepDone]) =
        (ctrlInit, 1)) := by
  refine ⟨?_, ?_, ?_⟩
  · intro s h
    unfold ctrlStep
    rw [if_pos h]
  · intro s h
    exact (creach_invariant s h).1
  · intro k hk
    have hkm : k = (k - 1) + 1 := by omega
    rw [hkm]
    constructor
    · rw [ctrlRun_append, ctrlRun_requests_from_sweep]
      decide
    · rw [ctrlRun_append, ctrlRun_requests_from_sweep]
      decide

/-- Witness for C3: two requests during a sweep yield exactly one more sweep,
after which the controller is idle. -/
theorem C3_run_coalescing_witness :
    ctrlRun { isProcessing := true, pending := false, running := 1 }
      (List.replicate 2 CEvent.request ++ [CEvent.sweepDone, CEvent.sweepDone]) =
      (ctrlInit, 1) :=
  (C3_run_coalescing.2.2 2 (by decide)).2

/-- Every single ledger operation preserves the uniqueness invariant. -/
theorem applyOp_unique (db : List Row) (op : LedgerOp) (h : UniqueKeys db) :
    UniqueKeys (applyOp db op) := by
  cases op with
  | sweep shop env => exact processShop_unique shop env db h
  | webhook env => rw [applyOp, webhook_db_unchanged]; exact h
  | singlePost shop review env now => exact postReview_uniqueKeys shop review env now db h

/-- Any sequence of ledger operations preserves the uniqueness invariant. -/
theorem applyOps_unique (ops : List LedgerOp) :
    ∀ db : List Row, UniqueKeys db → UniqueKeys (applyOps db ops) := by
  induction ops with
  | nil => intro db h; exact h
  | cons op rest ih => intro db h; exact ih _ (applyOp_unique db op h)

/-- C4 counterexample: an image-generation failure updates the row status to
failed but leaves the previously stored image URL in place — this ledger
write does not rewrite the image URL alongside the status. -/
theorem C4_counterexample :
    (postReviewToInstagram theShop review1 envImageFail 9 [rowOldImg]).db.map Row.imageUrl =
      [some "https://cdn.example.com/old.png"] ∧
    (postReviewToInstagram theShop review1 envImageFail 9 [rowOldImg]).db.map Row.status =
      ["failed"] ∧
    envImageFail.imageGen = none := by
  refine ⟨by decide, by decide, by decide⟩

/-- C4 amended: after any sequence of sweeps, webhook calls and single posts,
at most one ledger row exists per (shop, reviewId); every upsert update
rewrites rating, review text, reviewer name, product title and status in
place, and rewrites the image URL whenever the attempt carries one (the
image-generation-failure write carries none and leaves it untouched). -/
theorem C4_unique_ledger_amended :
    (∀ (db : List Row) (ops : List LedgerOp), UniqueKeys db → UniqueKeys (applyOps db ops)) ∧
    (∀ (f : UpsertFields) (r : Row),
      (applyUpdate f r).shop = r.shop ∧ (applyUpdate f r).reviewId = r.reviewId ∧
      (applyUpdate f r).rating = f.rating ∧
      (applyUpdate f r).reviewText = some f.reviewText ∧
      (applyUpdate f r).reviewerName = some f.reviewerName ∧
      (applyUpdate f r).productTitle = some f.productTitle ∧
      (applyUpdate f r).status = f.status ∧
      (∀ u, f.imageUrl = some u → (applyUpdate f r).imageUrl = some u)) := by
  constructor
  · intro db ops h
    exact applyOps_unique ops db h
  · intro f r
    refine ⟨rfl, rfl, rfl, rfl, rfl, rfl, rfl, ?_⟩
    intro u hu
    simp [applyUpdate, hu]

/-- Witness for the amended C4: a sweep, a webhook call and two posts of the
same review starting from an empty ledger keep the keys unique. -/
theorem C4_unique_ledger_amended_witness :
    UniqueKeys (applyOps []
      [LedgerOp.singlePost theShop review1 envAllOk 0,
       LedgerOp.singlePost theShop review1 envImageFail 1,
       LedgerOp.webhook wkImgFail,
       LedgerOp.sweep theShop shopEnvC5]) :=
  C4_unique_ledger_amended.1 []
    [LedgerOp.singlePost theShop review1 envAllOk 0,
     LedgerOp.singlePost theShop review1 envImageFail 1,
     LedgerOp.webhook wkImgFail,
     LedgerOp.sweep theShop shopEnvC5]
    List.Pairwise.nil

/-- C5 counterexample: with a remaining budget of one, one stored failed row
and one eligible new review, the failed retry does not consume the budget
and the new review is attempted in the same run — not only the failed row. -/
theorem C5_counterexample :
    Ev.post "r0" ∈ (runPostingPhases theShop shopEnvC5 1 [failedRow0]).trace ∧
    Ev.post "n1" ∈ (runPostingPhases theShop shopEnvC5 1 [failedRow0]).trace := by
  constructor <;> decide

/-- C5 amended: the retry query loads failed rows of the shop oldest-first up
to the budget; all retry attempts precede any review-source query, and post
events after the query all name rating-five fetched reviews; when the retry
phase ends with a zero budget the review source is never queried.  (When the
budget survives the retry phase — in particular after a failed retry, which
does not consume budget — the new-review phase still runs.) -/
theorem C5_retry_before_new_amended :
    (∀ (db : List Row) (shop : String) (q : Nat),
      List.Sorted postedAtLE (failedToRetry db shop q) ∧
      (failedToRetry db shop q).length ≤ q ∧
      (∀ rec ∈ failedToRetry db shop q, rec ∈ db ∧ rec.shop = shop ∧ rec.status = "failed")) ∧
    (∀ (shop : String) (env : ShopEnv) (q : Nat) (db : List Row),
      ∃ tR tN, (runPostingPhases shop env q db).trace = tR ++ tN ∧
        Ev.fetchReviews ∉ tR ∧
        (∀ x, Ev.post x ∈ tR → x ∈ (failedToRetry db shop q).map Row.reviewId) ∧
        (∀ x, Ev.post x ∈ tN → ∃ reviews, env.fetch = Except.ok reviews ∧
          ∃ r ∈ reviews, r.rating = 5 ∧ r.id = x)) ∧
    (∀ (shop : String) (env : ShopEnv) (q : Nat) (db : List Row),
      (retryLoop shop env
        { quota := q, posted := 0, failed := 0, errors := [], db := db,
          trace := [], attempted := [] } (failedToRetry db shop q)).quota = 0 →
      Ev.fetchReviews ∉ (runPostingPhases shop env q db).trace) :=
  ⟨fun db shop q =>
    ⟨failedToRetry_sorted db shop q, failedToRetry_length db shop q,
     fun rec h => failedToRetry_mem db shop q rec h⟩,
   fun shop env q db => runPosting_phase_order shop env q db,
   fun shop env q db h => runPosting_exhausted_no_fetch shop env q db h⟩

/-- Witness for the amended C5: with budget one and a succeeding retry, the
run ends without querying the review source. -/
theorem C5_retry_before_new_amended_witness :
    Ev.fetchReviews ∉ (runPostingPhases theShop shopEnvC5ok 1 [failedRow0]).trace :=
  C5_retry_before_new_amended.2.2 theShop shopEnvC5ok 1 [failedRow0] (by decide)

/-- C6 counterexample: the plan mapping grants a non-free plan no cap, yet the
per-shop procedure blocks a shop with five successes this month regardless —
the procedure never consults the plan (it resolves the quota from an absent
plan name). -/
theorem C6_counterexample :
    getMonthlyQuotaForPlanName (some "Pro") = none ∧
    (processShopReviews theShop shopEnvC6 dbC6).res =
      Except.ok { emptyResult with monthlyLimit := true } := by
  constructor <;> decide

/-- C6 amended: the quota mapping sends absent or free-containing plan names
to five and all other nonempty names to unlimited, but the per-shop procedure
always resolves the quota from an absent plan name, so any shop at five or
more successes this month (with Instagram connected and the daily cap clear)
is blocked with monthlyLimit, whatever its plan. -/
theorem C6_monthly_quota_amended :
    getMonthlyQuotaForPlanName none = some 5 ∧
    (∀ p : String, p.isEmpty = false →
      hasSub "free".data (p.data.map Char.toLower) = true →
      getMonthlyQuotaForPlanName (some p) = some 5) ∧
    (∀ p : String, p.isEmpty = false →
      hasSub "free".data (p.data.map Char.toLower) = false →
      getMonthlyQuotaForPlanName (some p) = none) ∧
    (∀ (shop : String) (env : ShopEnv) (db : List Row),
      env.instagramConnected = true →
      countSuccessSince db shop env.todayStart < MAX_POSTS_PER_DAY →
      5 ≤ countSuccessSince db shop env.monthStart →
      (processShopReviews shop env db).res =
        Except.ok { emptyResult with monthlyLimit := true }) := by
  refine ⟨rfl, ?_, ?_, ?_⟩
  · intro p hne hsub
    simp only [getMonthlyQuotaForPlanName]
    rw [if_neg (by simp [hne]), if_pos hsub]
  · intro p hne hsub
    simp only [getMonthlyQuotaForPlanName]
    rw [if_neg (by simp [hne]), if_neg (by simp [hsub])]
  · intro shop env db hconn hday hmonth
    exact (processShop_monthly shop env db hconn hday hmonth).1

/-- Witness for the amended C6: the concrete monthly-cap scenario is blocked
while the mapping would leave a Pro plan unlimited. -/
theorem C6_monthly_quota_amended_witness :
    (processShopReviews theShop shopEnvC6 dbC6).res =
      Except.ok { emptyResult with monthlyLimit := true } :=
  C6_monthly_quota_amended.2.2.2 theShop shopEnvC6 dbC6 rfl (by decide) (by decide)

/-- C7 counterexample: a container that becomes ready at the seventh poll
passes the initial AwaitReady bound (10) yet fails the recheck bound (5): the
extra wait-and-recheck cycle runs with a SMALLER attempt bound than the
initial poll, the recheck times out, and publish is not retried. -/
theorem C7_counterexample :
    publishRecheckMaxAttempts < defaultAwaitMaxAttempts ∧
    waitForMediaContainerReady pollReadyAt7 defaultAwaitMaxAttempts = Except.ok () ∧
    waitForMediaContainerReady pollReadyAt7 publishRecheckMaxAttempts =
      Except.error "Media container not ready after waiting" ∧
    (postReviewToInstagram theShop review1 envC7 0 []).result =
      Except.error ("Failed to publish media: " ++ "notready") ∧
    countEv Ev.publishCall (postReviewToInstagram theShop review1 envC7 0 []).trace = 1 := by
  refine ⟨by decide, by decide, by decide, by decide, by decide⟩

/-- C7 amended: after a successful container creation and initial await, a
publish failure with exactly code 9007 and subcode 2207027 triggers one extra
wait-and-recheck cycle with the smaller bound 5 (the initial poll uses the
default bound 10) and one further publish; a recheck failure, a second
publish failure, or any other publish error is terminal. -/
theorem C7_publish_retry_amended (shop : String) (review : ReviewData)
    (env : PostEnv) (now : Nat) (db : List Row) (u cid : String) (e1 : PubError)
    (himg : env.imageGen = some u) (hacc : env.accessible = true)
    (hcont : env.container = Except.ok cid)
    (hwait : waitForMediaContainerReady env.initPoll defaultAwaitMaxAttempts = Except.ok ())
    (hp1 : env.publish1 = Except.error e1) :
    publishRecheckMaxAttempts < defaultAwaitMaxAttempts ∧
    ((e1.code = some 9007 ∧ e1.subcode = some 2207027) →
      (waitForMediaContainerReady env.recheckPoll publishRecheckMaxAttempts = Except.ok () →
        countEv Ev.publishCall (postReviewToInstagram shop review env now db).trace = 2 ∧
        Ev.awaitReady publishRecheckMaxAttempts ∈
          (postReviewToInstagram shop review env now db).trace ∧
        (∀ p2, env.publish2 = Except.ok p2 →
          (postReviewToInstagram shop review env now db).result = Except.ok p2) ∧
        (∀ e2, env.publish2 = Except.error e2 →
          (postReviewToInstagram shop review env now db).result =
            Except.error ("Failed to publish media: " ++ e2.text))) ∧
      (∀ msg, waitForMediaContainerReady env.recheckPoll publishRecheckMaxAttempts =
          Except.error msg →
        countEv Ev.publishCall (postReviewToInstagram shop review env now db).trace = 1 ∧
        (postReviewToInstagram shop review env now db).result =
          Except.error ("Failed to publish media: " ++ e1.text))) ∧
    (¬(e1.code = some 9007 ∧ e1.subcode = some 2207027) →
      countEv Ev.publishCall (postReviewToInstagram shop review env now db).trace = 1 ∧
      (postReviewToInstagram shop review env now db).result =
        Except.error ("Failed to publish media: " ++ e1.text)) := by
  refine ⟨by decide, ?_, ?_⟩
  · intro hc
    constructor
    · intro hrw
      refine ⟨?_, ?_, ?_, ?_⟩
      · unfold postReviewToInstagram
        simp only [himg, hacc, hcont, hwait, hp1]
        rw [if_pos trivial]
        split
        · simp only [hrw]
          cases hp2 : env.publish2 with
          | ok p2 => simp only [hp2]; rfl
          | error e2 => simp only [hp2]; rfl
        · next hf => exact absurd hc hf
      · unfold postReviewToInstagram
        simp only [himg, hacc, hcont, hwait, hp1]
        rw [if_pos trivial]
        split
        · simp only [hrw]
          cases hp2 : env.publish2 with
          | ok p2 => simp only [hp2]; simp
          | error e2 => simp only [hp2]; simp
        · next hf => exact absurd hc hf
      · intro p2 hp2
        unfold postReviewToInstagram
        simp only [himg, hacc, hcont, hwait, hp1]
        rw [if_pos trivial]
        split
        · simp only [hrw, hp2]
        · next hf => exact absurd hc hf
      · intro e2 hp2
        unfold postReviewToInstagram
        simp only [himg, hacc, hcont, hwait, hp1]
        rw [if_pos trivial]
        split
        · simp only [hrw, hp2]
        · next hf => exact absurd hc hf
    · intro msg hrw
      unfold postReviewToInstagram
      simp only [himg, hacc, hcont, hwait, hp1]
      rw [if_pos trivial]
      split
      · simp only [hrw]
        exact ⟨rfl, trivial⟩
      · next hf => exact absurd hc hf
  · intro hc
    unfold postReviewToInstagram
    simp only [himg, hacc, hcont, hwait, hp1]
    rw [if_pos trivial]
    split
    · next hT => exact absurd hT hc
    · exact ⟨rfl, rfl⟩

/-- Witness for the amended C7: an unrelated publish error is terminal with a
single publish call. -/
theorem C7_publish_retry_amended_witness :
    countEv Ev.publishCall (postReviewToInstagram theShop review1 envC7w 0 []).trace = 1 ∧
    (postReviewToInstagram theShop review1 envC7w 0 []).result =
      Except.error ("Failed to publish media: " ++ pubErrOther.text) :=
  (C7_publish_retry_amended theShop review1 envC7w 0 []
    "https://cdn.example.com/img.png" "c1" pubErrOther
    rfl rfl rfl (by decide) rfl).2.2 (by decide)

/-- Shop environment whose fetch returns a single three-star review. -/
def shopEnvC8 : ShopEnv :=
  { instagramConnected := true, todayStart := 0, monthStart := 0, now := 100
    fetch := Except.ok [reviewLow], postEnv := fun _ => envAllOk }

/-- C8: reviews whose rating is not five are never posted: in the sweep, an
id carried only by non-five-star fetched reviews and absent from the ledger
is neither posted nor written; the webhook returns without any action on a
payload whose effective rating is not five. -/
theorem C8_rating_filter :
    (∀ (shop : String) (env : ShopEnv) (db : List Row) (i : String),
      (∀ reviews, env.fetch = Except.ok reviews →
        ∀ r ∈ reviews, r.id = i → ¬(r.rating = 5)) →
      hasKey db shop i = false →
      hasKey (processShopReviews shop env db).db shop i = false ∧
      Ev.post i ∉ (processShopReviews shop env db).trace) ∧
    (∀ (env : WebhookEnv) (db : List Row), webhookEffRating env ≠ some 5 →
      (webhookAction env db).trace = [] ∧ (webhookAction env db).db = db) :=
  ⟨fun shop env db i h1 h2 => processShop_key_isolation shop env db i h1 h2,
   fun env db h => webhook_skip_not_five env db h⟩

/-- Witness for C8: a fetched three-star review produces no post event and no
ledger row. -/
theorem C8_rating_filter_witness :
    hasKey (processShopReviews theShop shopEnvC8 []).db theShop "l1" = false ∧
    Ev.post "l1" ∉ (processShopReviews theShop shopEnvC8 []).trace :=
  C8_rating_filter.1 theShop shopEnvC8 [] "l1"
    (by
      intro reviews heq r hr hid
      have heq2 : Except.ok [reviewLow] = Except.ok reviews := heq
      injection heq2 with h
      subst h
      have hr2 := List.mem_singleton.mp hr
      subst hr2
      decide)
    rfl

/-- C9 counterexample: on the same image-generation failure, the webhook
path writes no ledger row while the sweep's post-one-review procedure
upserts a failed row — the two paths do not produce the same ledger
effects. -/
theorem C9_counterexample :
    (webhookAction wkImgFail []).status = 200 ∧
    (webhookAction wkImgFail []).db = ([] : List Row) ∧
    (postReviewToInstagram theShop review1 envImageFail 0 []).db ≠ [] := by
  refine ⟨by decide, by decide, by decide⟩

/-- C9 amended: the webhook runs its own inlined posting flow: it never
writes the ledger, never polls the container status (no await-ready step),
and publishes at most once (no media-not-ready retry); it also bypasses the
daily and monthly quota checks, which read the ledger the webhook never
consults. -/
theorem C9_webhook_inlined_amended :
    ∀ (env : WebhookEnv) (db : List Row),
      (webhookAction env db).db = db ∧
      (∀ n, Ev.awaitReady n ∉ (webhookAction env db).trace) ∧
      countEv Ev.publishCall (webhookAction env db).trace ≤ 1 :=
  fun env db =>
    ⟨webhook_db_unchanged env db,
     fun n => webhook_no_awaitReady env db n,
     webhook_publish_le_one env db⟩

/-- Webhook environment with an equal-length wrong signature. -/
def wkBad : WebhookEnv := { wkImgFail with hmacHeader := some "b", computedHmac := "a" }

/-- C10 counterexample: a signature header whose byte length differs from the
computed digest makes the constant-time comparison throw; the handler
answers 200, not 401 (though still without any action). -/
theorem C10_counterexample :
    wkShort.hmacHeader = some "abc" ∧
    wkShort.computedHmac = hex64 ∧
    "abc" ≠ hex64 ∧
    (webhookAction wkShort []).status = 200 ∧
    (webhookAction wkShort []).trace = [] := by
  refine ⟨rfl, rfl, by decide, by decide, by decide⟩

/-- C10 amended: a missing signature header or an equal-length mismatch is
rejected with 401 and no action; a header of a different byte length makes
the comparison throw and yields a 200 error response, still with no action
and no ledger write. -/
theorem C10_hmac_amended :
    (∀ (env : WebhookEnv) (db : List Row), env.hmacHeader = none →
      (webhookAction env db).status = 401 ∧ (webhookAction env db).trace = [] ∧
      (webhookAction env db).db = db) ∧
    (∀ (env : WebhookEnv) (db : List Row) (h : String), env.hmacHeader = some h →
      h.utf8ByteSize = env.computedHmac.utf8ByteSize → h ≠ env.computedHmac →
      (webhookAction env db).status = 401 ∧ (webhookAction env db).trace = [] ∧
      (webhookAction env db).db = db) ∧
    (∀ (env : WebhookEnv) (db : List Row) (h : String), env.hmacHeader = some h →
      h.utf8ByteSize ≠ env.computedHmac.utf8ByteSize →
      (webhookAction env db).status = 200 ∧ (webhookAction env db).trace = [] ∧
      (webhookAction env db).db = db) := by
  refine ⟨?_, ?_, ?_⟩
  · intro env db hh
    unfold webhookAction
    simp only [hh]
    refine ⟨?_, ?_, ?_⟩ <;> trivial
  · intro env db h hh hsize hne
    unfold webhookAction timingSafeEqualStr
    simp only [hh]
    rw [if_pos hsize]
    have hbeq : (h == env.computedHmac) = false := beq_eq_false_iff_ne.mpr hne
    simp only [hbeq]
    refine ⟨?_, ?_, ?_⟩ <;> trivial
  · intro env db h hh hsize
    unfold webhookAction timingSafeEqualStr
    simp only [hh]
    rw [if_neg hsize]
    refine ⟨?_, ?_, ?_⟩ <;> trivial

/-- Witness for the amended C10: an equal-length wrong signature is answered
with 401 and nothing happens. -/
theorem C10_hmac_amended_witness :
    (webhookAction wkBad []).status = 401 ∧ (webhookAction wkBad []).trace = [] ∧
    (webhookAction wkBad []).db = ([] : List Row) :=
  C10_hmac_amended.2.1 wkBad [] "b" rfl (by decide) (by decide)
